import Mathlib

/-!
# Verification of the voxel world engine core

A shallow embedding, in Lean 4, of the chunk / terrain / structures /
meshing / streaming core of the voxel engine (TypeScript sources:
`blocks.ts`, `chunk.ts`, `terrain.ts`, `structures.ts`, `world.ts`).

Modelling conventions:
* JS numbers holding block coordinates are modelled as `Int`; fractional
  quantities (ray positions, noise values, PRNG outputs) as `Rat`.
  `Math.floor(a / 32)` on integers is `Int.fdiv a 32`, and the source's
  `((a % 32) + 32) % 32` (JS truncated `%`, made non-negative) equals
  `Int.emod a 32` for the positive modulus 32.
* A chunk's `Uint8Array` block store is a function `Int → Nat` from the
  flat index used by `getBlockIndex`; a fresh array is all zeros (`AIR`),
  and a store clips the written value to a byte (`% 256`).
* The JS `Map` of chunks is an insertion-ordered association list, with
  `set` replacing in place and appending new keys at the end, matching
  JS `Map` iteration order.
* The seeded simplex-noise fields (`createNoise2D`/`createNoise3D` from
  the external `simplex-noise` package) are fixed at construction and
  never reseeded; they are modelled as oracle fields of the generator
  record.  Calls to the *unseeded* `Math.random()` are modelled by an
  explicit stream `rnd : Nat → Rat` together with a running index that
  is threaded through every operation in source order.
* Distance comparisons `Math.sqrt(dx*dx+dz*dz) > r` (with both sides
  non-negative) are modelled by the equivalent `dx*dx+dz*dz > r*r`;
  sort priorities compare squared distances, which orders and ties
  exactly as the square roots do.
-/

unseal Rat.add Rat.mul Rat.sub Rat.inv

namespace MC

/-! ## Block catalog (`blocks.ts`) -/

/-- Block type codes from the `BlockType` enum (`blocks.ts`). -/
abbrev BlockTy := Nat

namespace BlockTy

def AIR : BlockTy := 0
def GRASS : BlockTy := 1
def DIRT : BlockTy := 2
def STONE : BlockTy := 3
def SAND : BlockTy := 4
def WATER : BlockTy := 5
def WOOD : BlockTy := 6
def LEAVES : BlockTy := 7
def BEDROCK : BlockTy := 8
def COAL_ORE : BlockTy := 9
def IRON_ORE : BlockTy := 10
def GOLD_ORE : BlockTy := 11
def DIAMOND_ORE : BlockTy := 12
def SNOW : BlockTy := 13
def GLASS : BlockTy := 14
def BRICK : BlockTy := 15
def COBBLESTONE : BlockTy := 16
def PLANKS : BlockTy := 17
def TORCH : BlockTy := 18
def RED_SAND : BlockTy := 19
def TERRACOTTA : BlockTy := 20
def ORANGE_TERRACOTTA : BlockTy := 21
def YELLOW_TERRACOTTA : BlockTy := 22
def RED_TERRACOTTA : BlockTy := 23
def BROWN_TERRACOTTA : BlockTy := 24
def WHITE_TERRACOTTA : BlockTy := 25
def GRAVEL : BlockTy := 26
def CLAY : BlockTy := 27
def GLOWSTONE : BlockTy := 31
def MAGMA : BlockTy := 34
def PORTAL : BlockTy := 40
def END_PORTAL : BlockTy := 46
def CHEST : BlockTy := 49

end BlockTy

/-- The catalog field `BLOCKS[b].solid` for every enum code (0..50): false exactly for
Air, Water, Torch, Portal and End Portal.  (Codes above 50 do not occur
in the catalog; no operation of the core produces them.) -/
def solidB (b : BlockTy) : Bool :=
  decide (b ≤ 50) && !(b == 0 || b == 5 || b == 18 || b == 40 || b == 46)

/-- The catalog field `BLOCKS[b].transparent`: true exactly for Air, Water, Leaves, Glass,
Torch, Portal and End Portal. -/
def transparentB (b : BlockTy) : Bool :=
  b == 0 || b == 5 || b == 7 || b == 14 || b == 18 || b == 40 || b == 46

/-! ## Chunk (`chunk.ts`) -/

def CHUNK_SIZE : Int := 32
def CHUNK_HEIGHT : Int := 128

/-- The `Chunk` class state.  The derived geometry (`mesh`, `waterMesh`,
`torchGroup`: `THREE.js` GPU objects) is rendering-side and carried
separately by the mesh builder's result. -/
structure Chunk where
  chunkX : Int
  chunkZ : Int
  blocks : Int → BlockTy
  torchPositions : List (Int × Int × Int)
  needsRebuild : Bool
  isGenerated : Bool

/-- Constructor `new Chunk(x, z)`: a zero-filled `Uint8Array`, `needsRebuild = true`,
`isGenerated = false`. -/
def Chunk.new (cx cz : Int) : Chunk :=
  ⟨cx, cz, fun _ => BlockTy.AIR, [], true, false⟩

def Chunk.getBlockIndex (x y z : Int) : Int :=
  y * CHUNK_SIZE * CHUNK_SIZE + z * CHUNK_SIZE + x

def Chunk.getBlock (c : Chunk) (x y z : Int) : BlockTy :=
  if x < 0 ∨ CHUNK_SIZE ≤ x ∨ y < 0 ∨ CHUNK_HEIGHT ≤ y ∨ z < 0 ∨ CHUNK_SIZE ≤ z then
    BlockTy.AIR
  else
    c.blocks (Chunk.getBlockIndex x y z)

def Chunk.setBlock (c : Chunk) (x y z : Int) (t : BlockTy) : Chunk :=
  if x < 0 ∨ CHUNK_SIZE ≤ x ∨ y < 0 ∨ CHUNK_HEIGHT ≤ y ∨ z < 0 ∨ CHUNK_SIZE ≤ z then
    c
  else
    { c with
      blocks := fun i => if i = Chunk.getBlockIndex x y z then t % 256 else c.blocks i,
      needsRebuild := true }

/-! ## World: chunk map and block access (`world.ts`) -/

/-- Insertion-ordered association list standing for the JS `Map`. -/
def mapGet (l : List ((Int × Int) × Chunk)) (k : Int × Int) : Option Chunk :=
  (l.find? (fun p => p.1 = k)).map Prod.snd

/-- JS `Map.set`: replace in place if the key exists, else append. -/
def mapSet (l : List ((Int × Int) × Chunk)) (k : Int × Int) (c : Chunk) :
    List ((Int × Int) × Chunk) :=
  match l with
  | [] => [(k, c)]
  | (k', c') :: rest =>
    if k' = k then (k, c) :: rest else (k', c') :: mapSet rest k c

/-- JS `Map.delete`. -/
def mapDelete (l : List ((Int × Int) × Chunk)) (k : Int × Int) :
    List ((Int × Int) × Chunk) :=
  match l with
  | [] => []
  | (k', c') :: rest =>
    if k' = k then rest else (k', c') :: mapDelete rest k

/-- The `World` class state relevant to block storage and streaming.
Torch light bookkeeping and the `THREE.Scene` are rendering-side and
omitted.  `chunksToGenerate` entries carry the squared distance as
priority; `chunksToRebuild` holds chunk keys (the source stores object
references, which within a tick always denote the chunk resident in the
map under that key). -/
structure World where
  chunks : List ((Int × Int) × Chunk)
  chunksToGenerate : List (Int × Int × Int)
  chunksToRebuild : List (Int × Int)
  renderDistance : Int

def World.getChunk (w : World) (cx cz : Int) : Option Chunk :=
  mapGet w.chunks (cx, cz)

def World.getBlock (w : World) (x y z : Int) : BlockTy :=
  let cx := Int.fdiv x CHUNK_SIZE
  let cz := Int.fdiv z CHUNK_SIZE
  match w.getChunk cx cz with
  | none => BlockTy.AIR
  | some c =>
    if c.isGenerated then
      c.getBlock (Int.emod x CHUNK_SIZE) y (Int.emod z CHUNK_SIZE)
    else BlockTy.AIR

def World.markChunkForRebuild (w : World) (cx cz : Int) : World :=
  match w.getChunk cx cz with
  | none => w
  | some c =>
    if c.isGenerated then
      { w with chunks := mapSet w.chunks (cx, cz) { c with needsRebuild := true } }
    else w

def World.setBlock (w : World) (x y z : Int) (t : BlockTy) : World :=
  let cx := Int.fdiv x CHUNK_SIZE
  let cz := Int.fdiv z CHUNK_SIZE
  match w.getChunk cx cz with
  | none => w
  | some c =>
    if c.isGenerated then
      let lx := Int.emod x CHUNK_SIZE
      let lz := Int.emod z CHUNK_SIZE
      let w1 : World := { w with chunks := mapSet w.chunks (cx, cz) (c.setBlock lx y lz t) }
      let w2 := if lx = 0 then w1.markChunkForRebuild (cx - 1) cz else w1
      let w3 := if lx = CHUNK_SIZE - 1 then w2.markChunkForRebuild (cx + 1) cz else w2
      let w4 := if lz = 0 then w3.markChunkForRebuild cx (cz - 1) else w3
      if lz = CHUNK_SIZE - 1 then w4.markChunkForRebuild cx (cz + 1) else w4
    else w

/-! ## Basic lemmas about the chunk map -/

theorem mapGet_mapSet_self (l : List ((Int × Int) × Chunk)) (k : Int × Int) (c : Chunk) :
    mapGet (mapSet l k c) k = some c := by
  induction l with
  | nil => simp [mapGet, mapSet, List.find?]
  | cons hd tl ih =>
    obtain ⟨k', c'⟩ := hd
    by_cases h : k' = k
    · simp [mapSet, h, mapGet, List.find?]
    · simpa [mapSet, h, mapGet, List.find?, h] using ih

theorem mapGet_mapSet_ne (l : List ((Int × Int) × Chunk)) (k k' : Int × Int) (c : Chunk)
    (h : k' ≠ k) : mapGet (mapSet l k c) k' = mapGet l k' := by
  induction l with
  | nil => simp [mapGet, mapSet, List.find?, Ne.symm h]
  | cons hd tl ih =>
    obtain ⟨k0, c0⟩ := hd
    by_cases h0 : k0 = k
    · subst h0
      simp [mapSet, mapGet, List.find?, Ne.symm h]
    · by_cases h1 : k0 = k'
      · simp [mapSet, h0, mapGet, List.find?, h1, h]
      · simpa [mapSet, h0, mapGet, List.find?, h1] using ih

theorem World.getChunk_markChunkForRebuild_ne (w : World) (cx cz cx' cz' : Int)
    (h : (cx', cz') ≠ (cx, cz)) :
    (w.markChunkForRebuild cx cz).getChunk cx' cz' = w.getChunk cx' cz' := by
  unfold World.markChunkForRebuild
  cases hc : w.getChunk cx cz with
  | none => rfl
  | some c =>
    by_cases hg : c.isGenerated
    · simp only [hg, if_pos]
      exact mapGet_mapSet_ne _ _ _ _ h
    · simp [hg]

theorem Chunk.setBlock_isGenerated (c : Chunk) (x y z : Int) (t : BlockTy) :
    (c.setBlock x y z t).isGenerated = c.isGenerated := by
  unfold Chunk.setBlock; split <;> rfl

theorem Chunk.getBlock_setBlock_self (c : Chunk) (x y z : Int) (t : BlockTy)
    (hx : 0 ≤ x ∧ x < CHUNK_SIZE) (hy : 0 ≤ y ∧ y < CHUNK_HEIGHT)
    (hz : 0 ≤ z ∧ z < CHUNK_SIZE) (ht : t < 256) :
    (c.setBlock x y z t).getBlock x y z = t := by
  have hin : ¬(x < 0 ∨ CHUNK_SIZE ≤ x ∨ y < 0 ∨ CHUNK_HEIGHT ≤ y ∨ z < 0 ∨ CHUNK_SIZE ≤ z) := by
    unfold CHUNK_SIZE CHUNK_HEIGHT at *
    omega
  unfold Chunk.setBlock Chunk.getBlock
  simp only [hin, if_neg, not_false_iff, if_true]
  simp [Nat.mod_eq_of_lt ht]

/-- Reading a chunk key through a conditional `markChunkForRebuild`
aimed at a *different* key is unchanged. -/
theorem World.getChunk_ite_mark (p : Prop) [Decidable p] (w : World) (mx mz gx gz : Int)
    (hne : (gx, gz) ≠ (mx, mz)) (r : Option Chunk) (h : w.getChunk gx gz = r) :
    (if p then w.markChunkForRebuild mx mz else w).getChunk gx gz = r := by
  split
  · rw [World.getChunk_markChunkForRebuild_ne _ _ _ _ _ hne]; exact h
  · exact h

/-- Marking at a resident generated key flips exactly its
`needsRebuild` flag. -/
theorem World.getChunk_mark_hit (w : World) (cx cz : Int) (c : Chunk)
    (h : w.getChunk cx cz = some c) (hg : c.isGenerated = true) :
    (w.markChunkForRebuild cx cz).getChunk cx cz = some { c with needsRebuild := true } := by
  unfold World.markChunkForRebuild
  rw [h]
  simp only [hg, if_true]
  exact mapGet_mapSet_self _ _ _

/-- After `World.setBlock` the target chunk holds the result of the
chunk-level `setBlock`; the boundary `markChunkForRebuild` calls touch
only the four adjacent keys and leave the target key alone. -/
theorem World.getChunk_setBlock_center (w : World) (x y z : Int) (t : BlockTy) (c : Chunk)
    (hc : w.getChunk (Int.fdiv x CHUNK_SIZE) (Int.fdiv z CHUNK_SIZE) = some c)
    (hg : c.isGenerated = true) :
    (w.setBlock x y z t).getChunk (Int.fdiv x CHUNK_SIZE) (Int.fdiv z CHUNK_SIZE) =
      some (c.setBlock (Int.emod x CHUNK_SIZE) y (Int.emod z CHUNK_SIZE) t) := by
  unfold World.setBlock
  simp only [hc, hg, if_true]
  refine World.getChunk_ite_mark _ _ _ _ _ _ (by simp only [ne_eq, Prod.mk.injEq]; omega) _ ?_
  refine World.getChunk_ite_mark _ _ _ _ _ _ (by simp only [ne_eq, Prod.mk.injEq]; omega) _ ?_
  refine World.getChunk_ite_mark _ _ _ _ _ _ (by simp only [ne_eq, Prod.mk.injEq]; omega) _ ?_
  refine World.getChunk_ite_mark _ _ _ _ _ _ (by simp only [ne_eq, Prod.mk.injEq]; omega) _ ?_
  exact mapGet_mapSet_self _ _ _

/-- C2: for every world coordinate `(x, y, z)` inside a resident,
generated chunk with `0 ≤ y < 128`, and every block type `t`,
`setBlock` followed by `getBlock` at the same coordinate returns
exactly `t`. -/
theorem setBlock_getBlock_roundtrip (w : World) (x y z : Int) (t : BlockTy) (c : Chunk)
    (hc : w.getChunk (Int.fdiv x CHUNK_SIZE) (Int.fdiv z CHUNK_SIZE) = some c)
    (hg : c.isGenerated = true)
    (hy : 0 ≤ y ∧ y < CHUNK_HEIGHT) (ht : t < 256) :
    (w.setBlock x y z t).getBlock x y z = t := by
  have hpos : (0 : Int) < CHUNK_SIZE := by decide
  have hlx : 0 ≤ Int.emod x CHUNK_SIZE ∧ Int.emod x CHUNK_SIZE < CHUNK_SIZE :=
    ⟨Int.emod_nonneg x (by decide), Int.emod_lt_of_pos x hpos⟩
  have hlz : 0 ≤ Int.emod z CHUNK_SIZE ∧ Int.emod z CHUNK_SIZE < CHUNK_SIZE :=
    ⟨Int.emod_nonneg z (by decide), Int.emod_lt_of_pos z hpos⟩
  have hcenter := World.getChunk_setBlock_center w x y z t c hc hg
  unfold World.getBlock
  simp only [hcenter, Chunk.setBlock_isGenerated, hg, if_true]
  exact Chunk.getBlock_setBlock_self c _ y _ t hlx hy hlz ht

/-- C2 witness: a concrete world with one generated chunk at (0,0);
writing block 16 (cobblestone) at world (5, 10, 7) and reading it back
yields 16. -/
theorem setBlock_getBlock_roundtrip_witness :
    ((World.mk [((0, 0), { Chunk.new 0 0 with isGenerated := true })] [] [] 6).setBlock
        5 10 7 16).getBlock 5 10 7 = 16 :=
  setBlock_getBlock_roundtrip
    (World.mk [((0, 0), { Chunk.new 0 0 with isGenerated := true })] [] [] 6)
    5 10 7 16 { Chunk.new 0 0 with isGenerated := true } rfl rfl (by decide) (by decide)

/-- C3: for a coordinate whose containing chunk is absent or not
yet generated, `getBlock` returns `AIR` and `setBlock` returns the
world state entirely unchanged. -/
theorem ungenerated_getBlock_air_setBlock_noop (w : World) (x y z : Int) (t : BlockTy)
    (h : w.getChunk (Int.fdiv x CHUNK_SIZE) (Int.fdiv z CHUNK_SIZE) = none ∨
      ∃ c, w.getChunk (Int.fdiv x CHUNK_SIZE) (Int.fdiv z CHUNK_SIZE) = some c ∧
        c.isGenerated = false) :
    w.getBlock x y z = BlockTy.AIR ∧ w.setBlock x y z t = w := by
  rcases h with h | ⟨c, hc, hgen⟩
  · constructor
    · unfold World.getBlock; simp only [h]
    · unfold World.setBlock; simp only [h]
  · constructor
    · unfold World.getBlock; simp only [hc, hgen, if_false, Bool.false_eq_true]
    · unfold World.setBlock; simp only [hc, hgen, if_false, Bool.false_eq_true]

/-- C3 witness: on a world holding only a non-generated chunk at
(0,0), reading (1, 5, 1) gives air and writing stone there is a no-op. -/
theorem ungenerated_getBlock_air_setBlock_noop_witness :
    (World.mk [((0, 0), Chunk.new 0 0)] [] [] 6).getBlock 1 5 1 = BlockTy.AIR ∧
      (World.mk [((0, 0), Chunk.new 0 0)] [] [] 6).setBlock 1 5 1 3 =
        World.mk [((0, 0), Chunk.new 0 0)] [] [] 6 :=
  ungenerated_getBlock_air_setBlock_noop _ 1 5 1 3 (Or.inr ⟨Chunk.new 0 0, rfl, rfl⟩)

/-- C6: a `setBlock` at local x = 0 of chunk (3,3) (world x = 96)
marks resident generated neighbor chunk (2,3) as needing rebuild. -/
theorem boundary_edit_marks_neighbor (w : World) (y z : Int) (t : BlockTy) (c c' : Chunk)
    (hc : w.getChunk 3 3 = some c) (hg : c.isGenerated = true)
    (hc' : w.getChunk 2 3 = some c') (hg' : c'.isGenerated = true)
    (hz : Int.fdiv z CHUNK_SIZE = 3) :
    ∃ c'', (w.setBlock 96 y z t).getChunk 2 3 = some c'' ∧ c''.needsRebuild = true := by
  have e1 : Int.fdiv 96 CHUNK_SIZE = 3 := by decide
  have e2 : Int.emod 96 CHUNK_SIZE = 0 := by decide
  have e3 : ¬(Int.emod 96 CHUNK_SIZE = CHUNK_SIZE - 1) := by decide
  have e3' : ¬((0 : Int) = CHUNK_SIZE - 1) := by decide
  refine ⟨{ c' with needsRebuild := true }, ?_, rfl⟩
  unfold World.setBlock
  simp only [e1, hz, hc, hg, if_true, e3, e3', e2, if_pos, if_false, reduceIte]
  refine World.getChunk_ite_mark _ _ _ _ _ _ (by decide) _ ?_
  refine World.getChunk_ite_mark _ _ _ _ _ _ (by decide) _ ?_
  refine World.getChunk_mark_hit _ _ _ c' ?_ hg'
  show mapGet (mapSet w.chunks (3, 3) _) (2, 3) = some c'
  rw [mapGet_mapSet_ne _ _ _ _ (by decide)]
  exact hc'

/-- C6 witness: concrete world with generated chunks (3,3) and
(2,3); the edit at world (96, 10, 100) marks (2,3) dirty. -/
theorem boundary_edit_marks_neighbor_witness :
    ∃ c'', ((World.mk
      [((3, 3), { Chunk.new 3 3 with isGenerated := true, needsRebuild := false }),
       ((2, 3), { Chunk.new 2 3 with isGenerated := true, needsRebuild := false })]
      [] [] 6).setBlock 96 10 100 3).getChunk 2 3 = some c'' ∧ c''.needsRebuild = true :=
  boundary_edit_marks_neighbor _ 10 100 3
    { Chunk.new 3 3 with isGenerated := true, needsRebuild := false }
    { Chunk.new 2 3 with isGenerated := true, needsRebuild := false }
    rfl rfl rfl rfl (by decide)

/-! ## Raycast (`world.ts`, `raycast`)

The source marches `t` from `0` in steps of `0.1` (a JS double); the
model uses the exact rational `t = k / 10`.  On every branch point
relevant to the claims the comparisons have margins far exceeding the
double rounding error of the accumulated `t`, so the float and
rational paths coincide.  The source normalizes `direction` with
`Vector3.normalize` (a square root, outside ℚ); the model takes the
already-normalized direction, which for the unit axis directions used
by the spec scenarios is the argument itself. -/

/-- The JS `Math.sign`. -/
def ratSign (q : ℚ) : ℚ := if 0 < q then 1 else if q < 0 then -1 else 0

structure RayHit where
  hit : Bool
  position : Option (ℚ × ℚ × ℚ)
  normal : Option (ℚ × ℚ × ℚ)
  blockPos : Option (Int × Int × Int)
deriving DecidableEq

/-- The face normal at a hit: the axis of largest `|offset from voxel
center|` wins, ties resolved toward the later branches (x beats y and z
only strictly; then y beats z only strictly; else z). -/
def hitNormal (px py pz : ℚ) (bx by0 bz : Int) : ℚ × ℚ × ℚ :=
  let diffX := px - ((bx : ℚ) + 1/2)
  let diffY := py - ((by0 : ℚ) + 1/2)
  let diffZ := pz - ((bz : ℚ) + 1/2)
  if |diffX| > |diffY| ∧ |diffX| > |diffZ| then (ratSign diffX, 0, 0)
  else if |diffY| > |diffZ| then (0, ratSign diffY, 0)
  else (0, 0, ratSign diffZ)

def World.raycastAux (w : World) (ox oy oz dx dy dz maxD : ℚ) :
    (fuel : ℕ) → (t : ℚ) → RayHit
  | 0, _ => ⟨false, none, none, none⟩
  | fuel + 1, t =>
    if t < maxD then
      if w.getBlock ⌊ox + dx * t⌋ ⌊oy + dy * t⌋ ⌊oz + dz * t⌋ ≠ BlockTy.AIR ∧
          solidB (w.getBlock ⌊ox + dx * t⌋ ⌊oy + dy * t⌋ ⌊oz + dz * t⌋) = true then
        ⟨true, some (ox + dx * t, oy + dy * t, oz + dz * t),
          some (hitNormal (ox + dx * t) (oy + dy * t) (oz + dz * t)
            ⌊ox + dx * t⌋ ⌊oy + dy * t⌋ ⌊oz + dz * t⌋),
          some (⌊ox + dx * t⌋, ⌊oy + dy * t⌋, ⌊oz + dz * t⌋)⟩
      else
        w.raycastAux ox oy oz dx dy dz maxD fuel (t + 1/10)
    else ⟨false, none, none, none⟩

/-- Method `World.raycast(origin, direction, maxDistance = 8)`; `dir` is the
normalized direction.  The fuel bounds the number of `0.1` steps and is
never exhausted before the `t < maxDistance` loop condition fails. -/
def World.raycast (w : World) (origin dir : ℚ × ℚ × ℚ) (maxD : ℚ) : RayHit :=
  w.raycastAux origin.1 origin.2.1 origin.2.2 dir.1 dir.2.1 dir.2.2 maxD
    ((Rat.ceil (maxD * 10)).toNat + 1) 0

/-- One unrolling of the ray-march loop. -/
theorem World.raycastAux_succ (w : World) (ox oy oz dx dy dz maxD : ℚ) (fuel : ℕ) (t : ℚ) :
    w.raycastAux ox oy oz dx dy dz maxD (fuel + 1) t =
      if t < maxD then
        if w.getBlock ⌊ox + dx * t⌋ ⌊oy + dy * t⌋ ⌊oz + dz * t⌋ ≠ BlockTy.AIR ∧
            solidB (w.getBlock ⌊ox + dx * t⌋ ⌊oy + dy * t⌋ ⌊oz + dz * t⌋) = true then
          ⟨true, some (ox + dx * t, oy + dy * t, oz + dz * t),
            some (hitNormal (ox + dx * t) (oy + dy * t) (oz + dz * t)
              ⌊ox + dx * t⌋ ⌊oy + dy * t⌋ ⌊oz + dz * t⌋),
            some (⌊ox + dx * t⌋, ⌊oy + dy * t⌋, ⌊oz + dz * t⌋)⟩
        else
          w.raycastAux ox oy oz dx dy dz maxD fuel (t + 1/10)
      else ⟨false, none, none, none⟩ := rfl

/-- The world of the C5 scenario: one generated chunk at (0,0) whose
blocks are stone for every flat index with y ≤ 64 (index < 65·1024),
air above; so the topmost solid block of every column is at y = 64. -/
def groundChunk : Chunk :=
  { Chunk.new 0 0 with
    blocks := fun i => if i < 66560 then BlockTy.STONE else BlockTy.AIR,
    isGenerated := true }

def groundWorld : World := ⟨[((0, 0), groundChunk)], [], [], 6⟩

/-- C5 counterexample: raycasting from (0,65,0) straight down over
ground whose topmost solid block is at y = 64 hits block (0,64,0), but
the returned normal is (0,0,-1), not (0,1,0) as the claim states: the
sample point (0, 64.9, 0) sits on the voxel's x/z corner, `|diffX| =
|diffZ| = 1/2 > |diffY| = 2/5`, so the x test `|diffX| > |diffZ|`
fails, the y test `|diffY| > |diffZ|` fails, and the z branch fires. -/
theorem raycast_down_normal_not_up :
    (groundWorld.raycast (0, 65, 0) (0, -1, 0) 8).hit = true ∧
      (groundWorld.raycast (0, 65, 0) (0, -1, 0) 8).blockPos = some (0, 64, 0) ∧
      (groundWorld.raycast (0, 65, 0) (0, -1, 0) 8).normal ≠ some (0, 1, 0) ∧
      (groundWorld.raycast (0, 65, 0) (0, -1, 0) 8).normal = some (0, 0, -1) := by
  decide

/-- C5 amended: over any world whose column at x = z = 0 has a
non-solid block at y = 65 and a solid block at y = 64, the downward
raycast from (0,65,0) returns a hit with `blockPos = (0,64,0)` and
normal (0,0,-1): the hit point lies on the voxel's x/z corner and the
source's axis-comparison tie-break picks the z axis, not (0,1,0). -/
theorem raycast_straight_down_hit (w : World)
    (h65 : solidB (w.getBlock 0 65 0) = false)
    (h64 : solidB (w.getBlock 0 64 0) = true) :
    (w.raycast (0, 65, 0) (0, -1, 0) 8).hit = true ∧
      (w.raycast (0, 65, 0) (0, -1, 0) 8).blockPos = some (0, 64, 0) ∧
      (w.raycast (0, 65, 0) (0, -1, 0) 8).normal = some (0, 0, -1) := by
  have key : w.raycast (0, 65, 0) (0, -1, 0) 8 =
      ⟨true, some (0, 649/10, 0), some (0, 0, -1), some (0, 64, 0)⟩ := by
    show w.raycastAux 0 65 0 0 (-1) 0 8 ((Rat.ceil ((8 : ℚ) * 10)).toNat + 1) 0 = _
    rw [show (Rat.ceil ((8 : ℚ) * 10)).toNat + 1 = 80 + 1 from by decide]
    rw [World.raycastAux_succ]
    rw [if_pos (by norm_num : (0 : ℚ) < 8)]
    rw [show (0 : ℚ) + 0 * 0 = 0 from by norm_num,
        show (65 : ℚ) + (-1) * 0 = 65 from by norm_num]
    rw [show (⌊(0 : ℚ)⌋ : Int) = 0 from by decide,
        show (⌊(65 : ℚ)⌋ : Int) = 65 from by decide]
    have hcond65 : ¬(w.getBlock 0 65 0 ≠ BlockTy.AIR ∧
        solidB (w.getBlock 0 65 0) = true) := by
      intro hcontra
      rw [h65] at hcontra
      exact absurd hcontra.2 (by simp)
    rw [if_neg hcond65]
    rw [show (80 : ℕ) = 79 + 1 from by norm_num]
    rw [World.raycastAux_succ]
    rw [show (0 : ℚ) + 1/10 = 1/10 from by norm_num]
    rw [if_pos (by norm_num : (1 : ℚ)/10 < 8)]
    rw [show (0 : ℚ) + 0 * (1/10) = 0 from by norm_num,
        show (65 : ℚ) + (-1) * (1/10) = 649/10 from by norm_num]
    rw [show (⌊(0 : ℚ)⌋ : Int) = 0 from by decide,
        show (⌊(649/10 : ℚ)⌋ : Int) = 64 from by decide]
    have hcond64 : w.getBlock 0 64 0 ≠ BlockTy.AIR ∧
        solidB (w.getBlock 0 64 0) = true := by
      refine ⟨?_, h64⟩
      intro hair
      rw [hair] at h64
      exact absurd h64 (by decide)
    rw [if_pos hcond64]
    rw [show hitNormal 0 (649/10) 0 0 64 0 = (0, 0, -1) from by decide]
  rw [key]
  exact ⟨rfl, rfl, rfl⟩

/-- C5 witness: the amended raycast theorem instantiated on
the concrete ground world. -/
theorem raycast_straight_down_hit_witness :
    (groundWorld.raycast (0, 65, 0) (0, -1, 0) 8).hit = true ∧
      (groundWorld.raycast (0, 65, 0) (0, -1, 0) 8).blockPos = some (0, 64, 0) ∧
      (groundWorld.raycast (0, 65, 0) (0, -1, 0) 8).normal = some (0, 0, -1) :=
  raycast_straight_down_hit groundWorld (by decide) (by decide)

/-! ## Mesh builder (`chunk.ts`, `buildMesh` / `calculateAO`)

The six `DIRECTIONS` entries and the per-face AO offset tables are
transcribed from the source.  `buildMesh` walks voxels with `y` outer,
then `z`, then `x`; per voxel it skips air, records torches (emitting
no geometry), routes water to the water buffers (which receive *no* AO
entries), and for every other visible face pushes the four corner AO
values `calculateAO(...) / 3` into the AO buffer.  The model returns
the post-call chunk (torch list replaced by this scan's entries,
`needsRebuild := false`) together with the AO buffer; the remaining
geometry buffers (positions/normals/colors/uvs/indices) are not needed
by any claim and are omitted. -/

inductive Face
  | right
  | left
  | top
  | bottom
  | front
  | back
deriving DecidableEq

def Face.dir : Face → Int × Int × Int
  | .right => (1, 0, 0)
  | .left => (-1, 0, 0)
  | .top => (0, 1, 0)
  | .bottom => (0, -1, 0)
  | .front => (0, 0, 1)
  | .back => (0, 0, -1)

def DIRECTIONS : List Face := [.right, .left, .top, .bottom, .front, .back]

/-- The per-face `aoOffsets` table: four `(d1, d2)` pairs, one per
corner, in source order. -/
def Face.aoOffsets : Face → List ((Int × Int × Int) × (Int × Int × Int))
  | .top => [((-1, 1, 0), (0, 1, -1)), ((1, 1, 0), (0, 1, -1)),
      ((1, 1, 0), (0, 1, 1)), ((-1, 1, 0), (0, 1, 1))]
  | .bottom => [((-1, -1, 0), (0, -1, 1)), ((1, -1, 0), (0, -1, 1)),
      ((1, -1, 0), (0, -1, -1)), ((-1, -1, 0), (0, -1, -1))]
  | .front => [((-1, 0, 1), (0, -1, 1)), ((1, 0, 1), (0, -1, 1)),
      ((1, 0, 1), (0, 1, 1)), ((-1, 0, 1), (0, 1, 1))]
  | .back => [((1, 0, -1), (0, -1, -1)), ((-1, 0, -1), (0, -1, -1)),
      ((-1, 0, -1), (0, 1, -1)), ((1, 0, -1), (0, 1, -1))]
  | .right => [((1, 0, -1), (1, -1, 0)), ((1, 0, 1), (1, -1, 0)),
      ((1, 0, 1), (1, 1, 0)), ((1, 0, -1), (1, 1, 0))]
  | .left => [((-1, 0, 1), (-1, -1, 0)), ((-1, 0, -1), (-1, -1, 0)),
      ((-1, 0, -1), (-1, 1, 0)), ((-1, 0, 1), (-1, 1, 0))]

/-- Method `Chunk.calculateAO`: 0 when both side neighbors are solid, else
`3 - (side1 + side2 + corner)`. -/
def calculateAO (x y z : Int) (d1 d2 : Int × Int × Int)
    (gb : Int → Int → Int → BlockTy) : Int :=
  let side1 : Int := if solidB (gb (x + d1.1) (y + d1.2.1) (z + d1.2.2)) then 1 else 0
  let side2 : Int := if solidB (gb (x + d2.1) (y + d2.2.1) (z + d2.2.2)) then 1 else 0
  let corner : Int := if solidB (gb (x + d1.1 + d2.1) (y + d1.2.1 + d2.2.1)
      (z + d1.2.2 + d2.2.2)) then 1 else 0
  if side1 = 1 ∧ side2 = 1 then 0 else 3 - (side1 + side2 + corner)

/-- The `getBlockAt` helper closure of `buildMesh`: world-space lookup
resolving through the chunk itself when in-plane, through the supplied
neighbor lookup otherwise. -/
def Chunk.getBlockAt (c : Chunk) (nb : Int → Int → Int → BlockTy)
    (wx wy wz : Int) : BlockTy :=
  let lx := wx - c.chunkX * CHUNK_SIZE
  let lz := wz - c.chunkZ * CHUNK_SIZE
  if lx < 0 ∨ CHUNK_SIZE ≤ lx ∨ lz < 0 ∨ CHUNK_SIZE ≤ lz then nb wx wy wz
  else if wy < 0 ∨ CHUNK_HEIGHT ≤ wy then BlockTy.AIR
  else c.getBlock lx wy lz

/-- The face-neighbor lookup of the face loop in `buildMesh`. -/
def Chunk.faceNeighbor (c : Chunk) (nb : Int → Int → Int → BlockTy)
    (x y z : Int) (f : Face) : BlockTy :=
  let nx := x + f.dir.1
  let ny := y + f.dir.2.1
  let nz := z + f.dir.2.2
  if nx < 0 ∨ CHUNK_SIZE ≤ nx ∨ nz < 0 ∨ CHUNK_SIZE ≤ nz then
    nb (c.chunkX * CHUNK_SIZE + nx) ny (c.chunkZ * CHUNK_SIZE + nz)
  else if ny < 0 ∨ CHUNK_HEIGHT ≤ ny then BlockTy.AIR
  else c.getBlock nx ny nz

/-- Face culling: water faces are additionally culled against water;
every face is culled when the neighbor is solid and not transparent. -/
def faceVisible (isWater : Bool) (neighbor : BlockTy) : Bool :=
  if isWater ∧ neighbor = BlockTy.WATER then false
  else !(solidB neighbor && !transparentB neighbor)

/-- AO values pushed for one visible non-water face: the four corner
values `calculateAO(wx, y, wz, d1, d2, getBlockAt) / 3` in corner
order. -/
def Chunk.faceAOList (c : Chunk) (nb : Int → Int → Int → BlockTy)
    (x y z : Int) (f : Face) : List ℚ :=
  f.aoOffsets.map (fun d =>
    ((calculateAO (c.chunkX * CHUNK_SIZE + x) y (c.chunkZ * CHUNK_SIZE + z)
      d.1 d.2 (c.getBlockAt nb) : Int) : ℚ) / 3)

/-- AO values pushed while processing one voxel: air and torch voxels
emit nothing; water voxels route to the water buffers, which receive
no AO entries; other voxels push four values per visible face, faces
in `DIRECTIONS` order. -/
def Chunk.voxelAOList (c : Chunk) (nb : Int → Int → Int → BlockTy)
    (x y z : Int) : List ℚ :=
  let bt := c.getBlock x y z
  if bt = BlockTy.AIR then []
  else if bt = BlockTy.TORCH then []
  else if bt = BlockTy.WATER then []
  else
    DIRECTIONS.flatMap (fun f =>
      if faceVisible false (c.faceNeighbor nb x y z f) then c.faceAOList nb x y z f
      else [])

/-- The voxel visit order of `buildMesh`: `y` outer, then `z`, then
`x`; elements are `(x, y, z)` triples. -/
def voxelList : List (Int × Int × Int) :=
  (List.range 128).flatMap (fun (y : ℕ) =>
    (List.range 32).flatMap (fun (z : ℕ) =>
      (List.range 32).map (fun (x : ℕ) => ((x : Int), (y : Int), (z : Int)))))

def Chunk.buildMeshAos (c : Chunk) (nb : Int → Int → Int → BlockTy) : List ℚ :=
  voxelList.flatMap (fun v => c.voxelAOList nb v.1 v.2.1 v.2.2)

/-- The torch positions recorded by the scan (the list is reset at the
start of `buildMesh`, so afterwards it holds exactly this scan's
entries): world positions of the torch voxels, in visit order. -/
def Chunk.buildMeshTorches (c : Chunk) : List (Int × Int × Int) :=
  (voxelList.filter (fun v => decide (c.getBlock v.1 v.2.1 v.2.2 = BlockTy.TORCH))).map
    (fun v => (c.chunkX * CHUNK_SIZE + v.1, v.2.1, c.chunkZ * CHUNK_SIZE + v.2.2))

structure BuildResult where
  chunk : Chunk
  aos : List ℚ

/-- Method `Chunk.buildMesh(getNeighborBlock)`: returns the post-call chunk
(fresh torch list, `needsRebuild := false`) and the AO buffer. -/
def Chunk.buildMesh (c : Chunk) (nb : Int → Int → Int → BlockTy) : BuildResult :=
  { chunk := { c with torchPositions := c.buildMeshTorches, needsRebuild := false },
    aos := c.buildMeshAos nb }

theorem calculateAO_bounds (x y z : Int) (d1 d2 : Int × Int × Int)
    (gb : Int → Int → Int → BlockTy) :
    0 ≤ calculateAO x y z d1 d2 gb ∧ calculateAO x y z d1 d2 gb ≤ 3 := by
  unfold calculateAO
  by_cases h1 : solidB (gb (x + d1.1) (y + d1.2.1) (z + d1.2.2)) = true <;>
    by_cases h2 : solidB (gb (x + d2.1) (y + d2.2.1) (z + d2.2.2)) = true <;>
    by_cases h3 : solidB (gb (x + d1.1 + d2.1) (y + d1.2.1 + d2.2.1)
      (z + d1.2.2 + d2.2.2)) = true <;>
    simp [h1, h2, h3]

/-- C7: (i) every value emitted into the AO buffer by `buildMesh`
lies in [0, 1], for every chunk and neighbor lookup.  (ii) A vertex
whose two side neighbors are both solid gets emitted AO value exactly
0 (the fully dark minimum): `calculateAO` returns 0 there, and the
buffer receives `0 / 3 = 0`. -/
theorem ao_bounds_and_full_occlusion :
    (∀ (c : Chunk) (nb : Int → Int → Int → BlockTy) (a : ℚ),
        a ∈ (c.buildMesh nb).aos → 0 ≤ a ∧ a ≤ 1) ∧
      (∀ (gb : Int → Int → Int → BlockTy) (x y z : Int) (d1 d2 : Int × Int × Int),
        solidB (gb (x + d1.1) (y + d1.2.1) (z + d1.2.2)) = true →
        solidB (gb (x + d2.1) (y + d2.2.1) (z + d2.2.2)) = true →
        ((calculateAO x y z d1 d2 gb : Int) : ℚ) / 3 = 0) := by
  constructor
  · intro c nb a ha
    have ha' : a ∈ c.buildMeshAos nb := ha
    rw [Chunk.buildMeshAos, List.mem_flatMap] at ha'
    obtain ⟨v, _, hmem⟩ := ha'
    rw [Chunk.voxelAOList] at hmem
    split at hmem
    · simp at hmem
    · split at hmem
      · simp at hmem
      · split at hmem
        · simp at hmem
        · rw [List.mem_flatMap] at hmem
          obtain ⟨f, _, hmem2⟩ := hmem
          split at hmem2
          · rw [Chunk.faceAOList, List.mem_map] at hmem2
            obtain ⟨d, _, rfl⟩ := hmem2
            obtain ⟨hlo, hhi⟩ := calculateAO_bounds (c.chunkX * CHUNK_SIZE + v.1) v.2.1
              (c.chunkZ * CHUNK_SIZE + v.2.2) d.1 d.2 (c.getBlockAt nb)
            constructor
            · apply div_nonneg _ (by norm_num)
              exact_mod_cast hlo
            · rw [div_le_one (by norm_num)]
              exact_mod_cast hhi
          · simp at hmem2
  · intro gb x y z d1 d2 h1 h2
    unfold calculateAO
    simp only [h1, h2, if_true, and_self, reduceIte]
    norm_num

theorem mem_voxelList (v : Int × Int × Int) :
    v ∈ voxelList ↔
      0 ≤ v.1 ∧ v.1 < CHUNK_SIZE ∧ 0 ≤ v.2.1 ∧ v.2.1 < CHUNK_HEIGHT ∧
        0 ≤ v.2.2 ∧ v.2.2 < CHUNK_SIZE := by
  obtain ⟨x, y, z⟩ := v
  unfold voxelList CHUNK_SIZE CHUNK_HEIGHT
  constructor
  · intro h
    obtain ⟨y0, hy0, h2⟩ := List.mem_flatMap.mp h
    obtain ⟨z0, hz0, h3⟩ := List.mem_flatMap.mp h2
    obtain ⟨x0, hx0, heq⟩ := List.mem_map.mp h3
    rw [List.mem_range] at hy0 hz0 hx0
    have e1 : ((x0 : Int)) = x := congrArg Prod.fst heq
    have e2 : ((y0 : Int)) = y := congrArg (fun p : Int × Int × Int => p.2.1) heq
    have e3 : ((z0 : Int)) = z := congrArg (fun p : Int × Int × Int => p.2.2) heq
    simp only at e1 e2 e3
    dsimp only
    refine ⟨by omega, by omega, by omega, by omega, by omega, by omega⟩
  · dsimp only
    rintro ⟨hx0, hx1, hy0, hy1, hz0, hz1⟩
    refine List.mem_flatMap.mpr ⟨y.toNat, List.mem_range.mpr (by omega),
      List.mem_flatMap.mpr ⟨z.toNat, List.mem_range.mpr (by omega),
        List.mem_map.mpr ⟨x.toNat, List.mem_range.mpr (by omega), ?_⟩⟩⟩
    simp only [Prod.mk.injEq]
    refine ⟨by omega, by omega, by omega⟩

theorem voxelList_nodup : voxelList.Nodup := by
  unfold voxelList
  refine List.nodup_flatMap.mpr ⟨?_, ?_⟩
  · intro y _
    refine List.nodup_flatMap.mpr ⟨?_, ?_⟩
    · intro z _
      refine List.Nodup.map ?_ (List.nodup_range 32)
      intro a b hab
      have h1 : ((a : Int)) = b := congrArg Prod.fst hab
      exact_mod_cast h1
    · refine List.Pairwise.imp ?_ (List.nodup_range 32)
      intro z1 z2 hne
      rw [Function.onFun, List.disjoint_left]
      intro p hp1 hp2
      rw [List.mem_map] at hp1 hp2
      obtain ⟨a, _, rfl⟩ := hp1
      obtain ⟨b, _, heq⟩ := hp2
      have h2 : ((z2 : Int)) = ((z1 : Int)) :=
        congrArg (fun p : Int × Int × Int => p.2.2) heq
      exact hne (by exact_mod_cast h2.symm)
  · refine List.Pairwise.imp ?_ (List.nodup_range 128)
    intro y1 y2 hne
    rw [Function.onFun, List.disjoint_left]
    intro p hp1 hp2
    simp only [List.mem_flatMap, List.mem_map] at hp1 hp2
    obtain ⟨z1, _, a, _, rfl⟩ := hp1
    obtain ⟨z2, _, b, _, heq⟩ := hp2
    have h2 : ((y2 : Int)) = ((y1 : Int)) :=
      congrArg (fun p : Int × Int × Int => p.2.1) heq
    exact hne (by exact_mod_cast h2.symm)

/-- The chunk of the C7 witness: a single stone block at local
(0, 0, 0) (flat index 0). -/
def stoneChunk : Chunk :=
  { Chunk.new 0 0 with
    blocks := fun i => if i = 0 then BlockTy.STONE else BlockTy.AIR,
    isGenerated := true }

/-- C7 witness: on the single-stone chunk with an all-air neighbor
lookup the value 1 is emitted into the AO buffer and lies in [0, 1];
and with an all-stone lookup (both side neighbors solid) the emitted
corner value is exactly 0. -/
theorem ao_bounds_witness :
    (0 ≤ (1 : ℚ) ∧ (1 : ℚ) ≤ 1) ∧
      ((calculateAO 0 0 0 (-1, 1, 0) (0, 1, -1) (fun _ _ _ => BlockTy.STONE) : Int) : ℚ)
        / 3 = 0 := by
  constructor
  · apply ao_bounds_and_full_occlusion.1 stoneChunk (fun _ _ _ => BlockTy.AIR) 1
    show (1 : ℚ) ∈ stoneChunk.buildMeshAos (fun _ _ _ => BlockTy.AIR)
    rw [Chunk.buildMeshAos, List.mem_flatMap]
    refine ⟨(0, 0, 0), ?_, ?_⟩
    · rw [mem_voxelList]
      refine ⟨le_refl 0, by decide, le_refl 0, by decide, le_refl 0, by decide⟩
    · decide
  · exact ao_bounds_and_full_occlusion.2 (fun _ _ _ => BlockTy.STONE) 0 0 0
      (-1, 1, 0) (0, 1, -1) (by decide) (by decide)

/-- C10: after every `buildMesh` call the torch-position list
holds exactly the world positions of the TORCH blocks currently in the
chunk's block array (the list is cleared before the scan, so entries
never accumulate), without duplicates, and `needsRebuild` is false. -/
theorem torchPositions_exact (c : Chunk) (nb : Int → Int → Int → BlockTy) :
    (∀ p : Int × Int × Int,
        p ∈ (c.buildMesh nb).chunk.torchPositions ↔
          ∃ x y z : Int, 0 ≤ x ∧ x < CHUNK_SIZE ∧ 0 ≤ y ∧ y < CHUNK_HEIGHT ∧
            0 ≤ z ∧ z < CHUNK_SIZE ∧ c.getBlock x y z = BlockTy.TORCH ∧
            p = (c.chunkX * CHUNK_SIZE + x, y, c.chunkZ * CHUNK_SIZE + z)) ∧
      (c.buildMesh nb).chunk.torchPositions.Nodup ∧
      (c.buildMesh nb).chunk.needsRebuild = false := by
  refine ⟨?_, ?_, rfl⟩
  · intro p
    show p ∈ c.buildMeshTorches ↔ _
    rw [Chunk.buildMeshTorches]
    simp only [List.mem_map, List.mem_filter, decide_eq_true_eq, mem_voxelList]
    constructor
    · rintro ⟨⟨x, y, z⟩, ⟨⟨hx0, hx1, hy0, hy1, hz0, hz1⟩, ht⟩, rfl⟩
      exact ⟨x, y, z, hx0, hx1, hy0, hy1, hz0, hz1, ht, rfl⟩
    · rintro ⟨x, y, z, hx0, hx1, hy0, hy1, hz0, hz1, ht, rfl⟩
      exact ⟨(x, y, z), ⟨⟨hx0, hx1, hy0, hy1, hz0, hz1⟩, ht⟩, rfl⟩
  · show (c.buildMeshTorches).Nodup
    rw [Chunk.buildMeshTorches]
    refine List.Nodup.map ?_ (List.Nodup.filter _ voxelList_nodup)
    intro a b hab
    have h1 := congrArg (fun p : Int × Int × Int => p.1) hab
    have h2 := congrArg (fun p : Int × Int × Int => p.2.1) hab
    have h3 := congrArg (fun p : Int × Int × Int => p.2.2) hab
    simp at h1 h2 h3
    obtain ⟨a1, a2, a3⟩ := a
    obtain ⟨b1, b2, b3⟩ := b
    simp at h1 h2 h3 ⊢
    omega

/-! ## Overworld terrain generator (`terrain.ts`)

The six seeded simplex-noise fields are fixed at construction from the
seed (via the external `simplex-noise` package and the mulberry32 PRNG)
and are modelled as oracle fields; every other quantity is transcribed.
JS double literals (`0.008`, `0.03`, ...) are modelled by their decimal
values.  The two `Math.random()` calls (ocean-floor surface block,
tree trunk height) are modelled by the explicit stream `rnd` with a
running index threaded in source execution order: the column loop runs
`x` outer / `z` inner, consuming one sample per ocean column whose
height lies in [0, 128); the tree pass runs over `x, z ∈ [2, 30)` and
consumes one sample per planted tree. -/

structure TerrainGen where
  noise2D : ℚ → ℚ → ℚ
  noise3D : ℚ → ℚ → ℚ → ℚ
  caveNoise : ℚ → ℚ → ℚ → ℚ
  caveNoise2 : ℚ → ℚ → ℚ → ℚ
  ravinNoise : ℚ → ℚ → ℚ → ℚ
  treeNoise : ℚ → ℚ → ℚ

def SEA_LEVEL : Int := 40
def BASE_HEIGHT : Int := 45

/-- Method `fbm2D`: multi-octave noise; accumulates (value, amplitude,
frequency, maxValue) and divides. -/
def fbm2D (n2 : ℚ → ℚ → ℚ) (x z : ℚ) (octaves : ℕ) (persistence scale : ℚ) : ℚ :=
  let s := (List.range octaves).foldl
    (fun (acc : ℚ × ℚ × ℚ × ℚ) _ =>
      (acc.1 + n2 (x * acc.2.2.1) (z * acc.2.2.1) * acc.2.1,
        acc.2.1 * persistence, acc.2.2.1 * 2, acc.2.2.2 + acc.2.1))
    (0, 1, scale, 0)
  s.1 / s.2.2.2

def TerrainGen.getTerrainHeight (tg : TerrainGen) (wx wz : Int) : Int :=
  let continentalness := fbm2D tg.noise2D wx wz 4 (1/2) (1/1000)
  let hills := fbm2D tg.noise2D ((wx : ℚ) + 1000) ((wz : ℚ) + 1000) 4 (1/2) (8/1000)
  let detail := fbm2D tg.noise2D ((wx : ℚ) + 2000) ((wz : ℚ) + 2000) 3 (1/2) (3/100)
  Rat.floor ((BASE_HEIGHT : ℚ) + continentalness * 30 + hills * 15 + detail * 5)

inductive Biome
  | plains
  | desert
  | mountains
  | forest
  | mesa
  | ocean
deriving DecidableEq

def TerrainGen.getBiome (tg : TerrainGen) (wx wz : Int) : Biome :=
  let temperature := fbm2D tg.noise2D ((wx : ℚ) + 5000) ((wz : ℚ) + 5000) 2 (1/2) (15/10000)
  let moisture := fbm2D tg.noise2D ((wx : ℚ) + 6000) ((wz : ℚ) + 6000) 2 (1/2) (15/10000)
  let continentalness := fbm2D tg.noise2D ((wx : ℚ) + 7000) ((wz : ℚ) + 7000) 2 (1/2) (1/1000)
  if continentalness < -(3/10) then .ocean
  else if temperature > 4/10 ∧ moisture < -(2/10) then .mesa
  else if temperature > 3/10 ∧ moisture < 0 then .desert
  else if fbm2D tg.noise2D wx wz 2 (1/2) (2/1000) > 4/10 then .mountains
  else if moisture > 2/10 then .forest
  else .plains

def mesaLayerPattern : List BlockTy :=
  [BlockTy.TERRACOTTA, BlockTy.TERRACOTTA, BlockTy.ORANGE_TERRACOTTA, BlockTy.TERRACOTTA,
   BlockTy.YELLOW_TERRACOTTA, BlockTy.TERRACOTTA, BlockTy.RED_TERRACOTTA, BlockTy.TERRACOTTA,
   BlockTy.BROWN_TERRACOTTA, BlockTy.TERRACOTTA, BlockTy.WHITE_TERRACOTTA, BlockTy.TERRACOTTA,
   BlockTy.ORANGE_TERRACOTTA, BlockTy.YELLOW_TERRACOTTA]

/-- Lookup `layerPattern[y % 14]`; the loop only passes non-negative `y`, for
which the JS `%` agrees with `Int.emod`. -/
def getMesaTerracottaLayer (y : Int) : BlockTy :=
  mesaLayerPattern.getD (Int.emod y 14).toNat BlockTy.TERRACOTTA

/-- The ore branch of the column fill (`y < height - 4`, base stone):
the source applies the coal, iron, gold, diamond tests in order with
later assignments overwriting earlier ones, so the priority is diamond
over gold over iron over coal. -/
def TerrainGen.oreOrStone (tg : TerrainGen) (wx y wz : Int) : BlockTy :=
  if y > 3 then
    let coalNoise := tg.noise3D ((wx : ℚ) * (15/100)) ((y : ℚ) * (15/100)) ((wz : ℚ) * (15/100))
    let ironNoise := tg.noise3D ((wx : ℚ) * (12/100) + 100) ((y : ℚ) * (12/100))
      ((wz : ℚ) * (12/100) + 100)
    let goldNoise := tg.noise3D ((wx : ℚ) * (1/10) + 200) ((y : ℚ) * (1/10))
      ((wz : ℚ) * (1/10) + 200)
    let diamondNoise := tg.noise3D ((wx : ℚ) * (8/100) + 300) ((y : ℚ) * (8/100))
      ((wz : ℚ) * (8/100) + 300)
    if diamondNoise > 8/10 ∧ y < 16 then BlockTy.DIAMOND_ORE
    else if goldNoise > 3/4 ∧ y < 32 then BlockTy.GOLD_ORE
    else if ironNoise > 7/10 ∧ y < 64 then BlockTy.IRON_ORE
    else if coalNoise > 65/100 ∧ y < 80 then BlockTy.COAL_ORE
    else BlockTy.STONE
  else BlockTy.STONE

/-- The cave-carving union of the four 3D-noise systems. -/
def TerrainGen.isCave (tg : TerrainGen) (wx y wz : Int) : Bool :=
  let caveValue := tg.caveNoise ((wx : ℚ) * (3/100)) ((y : ℚ) * (5/100)) ((wz : ℚ) * (3/100))
  let caveValue2 := tg.caveNoise2 ((wx : ℚ) * (5/100)) ((y : ℚ) * (3/100)) ((wz : ℚ) * (5/100))
  let deepTunnel := tg.caveNoise ((wx : ℚ) * (15/1000) + 500) ((y : ℚ) * (2/100))
    ((wz : ℚ) * (15/1000) + 500)
  let deepTunnel2 := tg.caveNoise2 ((wx : ℚ) * (2/100) + 500) ((y : ℚ) * (15/1000))
    ((wz : ℚ) * (2/100) + 500)
  let cavernNoise := tg.caveNoise ((wx : ℚ) * (8/1000)) ((y : ℚ) * (2/100)) ((wz : ℚ) * (8/1000))
  let cavernRoom := y < 40 ∧ cavernNoise > 6/10
  let ravineNoise := tg.ravinNoise ((wx : ℚ) * (2/100)) ((y : ℚ) * (1/10)) ((wz : ℚ) * (2/100))
  let ravineNoise2 := tg.ravinNoise ((wx : ℚ) * (3/100)) 0 ((wz : ℚ) * (3/100))
  let ravine := |ravineNoise| < 8/100 ∧ ravineNoise2 > 1/2 ∧ y < 50
  let isMainCave := caveValue > 1/2 ∧ caveValue2 > 4/10
  let isDeepTunnel := y < 45 ∧ deepTunnel > 55/100 ∧ deepTunnel2 > 35/100
  decide (isMainCave ∨ isDeepTunnel ∨ cavernRoom ∨ ravine)

/-- The block the y-loop computes for one cell of a column; `rv` is the
`Math.random()` sample used by the ocean surface branch. -/
def TerrainGen.columnBlock (tg : TerrainGen) (wx wz height : Int) (biome : Biome)
    (rv : ℚ) (y : Int) : BlockTy :=
  let base :=
    if y = 0 then BlockTy.BEDROCK
    else if y < height - 4 then tg.oreOrStone wx y wz
    else if y < height then
      match biome with
      | .desert => BlockTy.SAND
      | .mesa => getMesaTerracottaLayer y
      | .ocean => if y < height - 2 then BlockTy.STONE else BlockTy.GRAVEL
      | _ => BlockTy.DIRT
    else if y = height then
      match biome with
      | .desert => BlockTy.SAND
      | .mesa => BlockTy.RED_SAND
      | .ocean => if rv < 3/10 then BlockTy.CLAY else BlockTy.GRAVEL
      | _ => if height > 70 then BlockTy.SNOW else BlockTy.GRASS
    else if y ≤ SEA_LEVEL ∧ y > height then BlockTy.WATER
    else BlockTy.AIR
  if y > 1 ∧ y < height - 2 ∧ base ≠ BlockTy.BEDROCK ∧ tg.isCave wx y wz then BlockTy.AIR
  else base

/-- One column's 128 `setBlock` calls, fused into a single update: the
y-loop writes every flat index `1024*y + 32*z + x` with `y ∈ [0,128)`
exactly once, so redirecting exactly those indices to the per-`y`
column function is equivalent. -/
def colUpdate (blocks : Int → BlockTy) (x z : Int) (col : Int → BlockTy) :
    Int → BlockTy :=
  fun i =>
    if Int.emod i CHUNK_SIZE = x ∧ Int.emod (Int.fdiv i CHUNK_SIZE) CHUNK_SIZE = z ∧
        0 ≤ i ∧ i < CHUNK_SIZE * CHUNK_SIZE * CHUNK_HEIGHT then
      col (Int.fdiv i (CHUNK_SIZE * CHUNK_SIZE))
    else blocks i

/-- Column visit order of the first generation pass: `x` outer, `z`
inner. -/
def columnOrder : List (ℕ × ℕ) :=
  (List.range 32).flatMap (fun (x : ℕ) => (List.range 32).map (fun (z : ℕ) => (x, z)))

/-- First pass: fill every column, threading the `Math.random()` index
(one sample consumed by each ocean column whose surface height is
reached by the y-loop, i.e. lies in [0, 128)). -/
def TerrainGen.genPass1 (tg : TerrainGen) (cx cz : Int) (rnd : ℕ → ℚ)
    (blocks0 : Int → BlockTy) (ri0 : ℕ) : (Int → BlockTy) × ℕ :=
  columnOrder.foldl
    (fun acc p =>
      let x : Int := p.1
      let z : Int := p.2
      let wx := cx * CHUNK_SIZE + x
      let wz := cz * CHUNK_SIZE + z
      let height := tg.getTerrainHeight wx wz
      let biome := tg.getBiome wx wz
      let rv := rnd acc.2
      (colUpdate acc.1 x z (fun y => tg.columnBlock wx wz height biome rv y),
        if biome = Biome.ocean ∧ 0 ≤ height ∧ height < CHUNK_HEIGHT then acc.2 + 1
        else acc.2))
    (blocks0, ri0)

/-- The list `[a, a+1, ..., b]` (empty when `b < a`), the inclusive loops of the
source. -/
def rangeII (a b : Int) : List Int :=
  (List.range (b + 1 - a).toNat).map (fun (i : ℕ) => a + (i : Int))

/-- Leaf offset visit order: `lx` outer, then `lz`, then `ly`. -/
def leafOffsets : List (Int × Int × Int) :=
  (rangeII (-2) 2).flatMap (fun lx =>
    (rangeII (-2) 2).flatMap (fun lz =>
      (rangeII 0 3).map (fun ly => (lx, lz, ly))))

/-- Method `generateTree`: trunk of `4 + floor(random()*3)` wood blocks, then
a spherical leaf canopy; `sqrt(lx²+lz²+(ly-1)²) ≤ 2.5` on integer
offsets is equivalent to the squared comparison `≤ 6`. -/
def TerrainGen.generateTree (c : Chunk) (x y z : Int) (rv : ℚ) : Chunk :=
  let trunkHeight : Int := 4 + Rat.floor (rv * 3)
  let c1 := (List.range trunkHeight.toNat).foldl
    (fun (c : Chunk) (ty : ℕ) =>
      if y + (ty : Int) < CHUNK_HEIGHT then c.setBlock x (y + (ty : Int)) z BlockTy.WOOD
      else c) c
  let leavesStart := y + trunkHeight - 2
  leafOffsets.foldl
    (fun (c : Chunk) o =>
      if o.1 * o.1 + o.2.1 * o.2.1 + (o.2.2 - 1) * (o.2.2 - 1) ≤ 6 then
        let nx := x + o.1
        let ny := leavesStart + o.2.2
        let nz := z + o.2.1
        if 0 ≤ nx ∧ nx < CHUNK_SIZE ∧ ny < CHUNK_HEIGHT ∧ 0 ≤ nz ∧ nz < CHUNK_SIZE then
          if c.getBlock nx ny nz = BlockTy.AIR then c.setBlock nx ny nz BlockTy.LEAVES
          else c
        else c
      else c) c1

/-- The ground scan of the tree pass: `y` from 127 down to 41 (the loop
runs while `y > SEA_LEVEL`), first grass or dirt block, else -1. -/
def findTreeGround (c : Chunk) (x z : Int) : Int :=
  go 87 127
where
  go : ℕ → Int → Int
    | 0, _ => -1
    | fuel + 1, y =>
      if c.getBlock x y z = BlockTy.GRASS ∨ c.getBlock x y z = BlockTy.DIRT then y
      else go fuel (y - 1)

/-- Tree-spot visit order: `x, z ∈ [2, 30)`, `x` outer. -/
def treeSpotOrder : List (ℕ × ℕ) :=
  (List.range' 2 28).flatMap (fun (x : ℕ) => (List.range' 2 28).map (fun (z : ℕ) => (x, z)))

/-- Second pass: tree placement, threading the `Math.random()` index
(one sample per planted tree, consumed for the trunk height). -/
def TerrainGen.treePass (tg : TerrainGen) (rnd : ℕ → ℚ) (cx cz : Int)
    (start : Chunk × ℕ) : Chunk × ℕ :=
  treeSpotOrder.foldl
    (fun acc p =>
      let x : Int := p.1
      let z : Int := p.2
      let wx := cx * CHUNK_SIZE + x
      let wz := cz * CHUNK_SIZE + z
      let biome := tg.getBiome wx wz
      if biome = Biome.desert then acc
      else
        let treeChance : ℚ := if biome = Biome.forest then 3/100 else 1/100
        let treeValue := (tg.treeNoise ((wx : ℚ) * (1/2)) ((wz : ℚ) * (1/2)) + 1) / 2
        if treeValue < treeChance then
          let groundY := findTreeGround acc.1 x z
          if groundY > 0 then
            (TerrainGen.generateTree acc.1 x (groundY + 1) z (rnd acc.2), acc.2 + 1)
          else acc
        else acc)
    start

/-- Method `TerrainGenerator.generateChunk(chunk)`: both passes, then
`isGenerated := true`, `needsRebuild := true`.  Returns the filled
chunk and the advanced `Math.random()` index. -/
def TerrainGen.generateChunk (tg : TerrainGen) (rnd : ℕ → ℚ) (ri : ℕ) (c : Chunk) :
    Chunk × ℕ :=
  let p1 := tg.genPass1 c.chunkX c.chunkZ rnd c.blocks ri
  let c1 : Chunk := { c with blocks := p1.1, needsRebuild := true }
  let p2 := tg.treePass rnd c.chunkX c.chunkZ (c1, p1.2)
  ({ p2.1 with isGenerated := true, needsRebuild := true }, p2.2)

/-- Constant noise oracles forcing every column into the ocean biome
with surface height 20: `noise2D ≡ -1/2` makes every fBm sample -1/2,
so continentalness = -1/2 < -0.3 (ocean) and height = ⌊45 - 25⌋ = 20;
all 3D noise is 0 (no ores, no caves) and `treeNoise ≡ 0` plants no
trees. -/
def tgOceanConst : TerrainGen :=
  { noise2D := fun _ _ => -(1/2)
    noise3D := fun _ _ _ => 0
    caveNoise := fun _ _ _ => 0
    caveNoise2 := fun _ _ _ => 0
    ravinNoise := fun _ _ _ => 0
    treeNoise := fun _ _ => 0 }

set_option maxRecDepth 100000 in
/-- C1: the code violates the claim: `generateChunk` is not a pure function of chunk
coordinates and seed: the ocean-floor surface branch draws from the
unseeded `Math.random()` (as does the tree-trunk height), so two fresh
generations of the same chunk with the same seeded noise fields can
differ byte-wise.  At the surface cell (0, 20, 0) of chunk (0,0), a
random stream returning 0 yields clay and a stream returning 1/2
yields gravel. -/
theorem generateChunk_depends_on_mathrandom :
    ((tgOceanConst.generateChunk (fun _ => 0) 0 (Chunk.new 0 0)).1.getBlock 0 20 0 =
        BlockTy.CLAY) ∧
      ((tgOceanConst.generateChunk (fun _ => 1/2) 0 (Chunk.new 0 0)).1.getBlock 0 20 0 =
        BlockTy.GRAVEL) ∧
      BlockTy.CLAY ≠ BlockTy.GRAVEL := by
  decide

/-! ## Structure generator (`structures.ts`)

`seededRandom` is modelled exactly over the integers:
`seed' = (seed * 1103515245 + 12345) & 0x7fffffff` equals
`Int.emod (seed * 1103515245 + 12345) 2^31` (the JS `&` takes the low
31 bits of the two's-complement representation).  For seeds large
enough that `seed * 1103515245` exceeds 2^53 the JS double product
rounds before the bit-mask; the integer model is exact on the seeds of
the small chunk coordinates used below, and no settled claim depends
on the sampled values.

`tryGenerateShipwreck`'s hull loop iterates `dx` from `-width` in
steps of 1 where `width = max(1, 3 - |dz|/3)` can be fractional; a
`setBlock` at a fractional world x reaches a fractional `Uint8Array`
index, where JS silently drops the store, but `needsRebuild` is still
set and the z-boundary neighbor marks still fire.  `setBlockFracX`
models exactly that. -/

structure LootItem where
  type : String
  count : Nat
deriving DecidableEq

structure LootChest where
  x : Int
  y : Int
  z : Int
  items : List LootItem
deriving DecidableEq

structure VillageLocation where
  x : Int
  z : Int
  buildingPositions : List (Int × Int × String)
deriving DecidableEq

structure SGState where
  generatedStructures : List (Int × Int)
  lootChests : List LootChest
  villageLocations : List VillageLocation
  spawnVillageGenerated : Bool

/-- One call of the closure produced by `seededRandom(seed)`: the new
seed and the sample `seed' / 0x7fffffff ∈ [0, 1]`. -/
def sgRandStep (seed : Int) : Int × ℚ :=
  let s2 := Int.emod (seed * 1103515245 + 12345) 2147483648
  (s2, (s2 : ℚ) / 2147483647)

def shouldGenerateStructure (cx cz : Int) (frequency : ℚ) (seed : Int) : Bool :=
  decide ((sgRandStep (cx * 73856093 + cz * 19349663 + seed)).2 < frequency)

/-- Run a sequence of `world.setBlock` calls. -/
def writeBlocks (w : World) (l : List ((Int × Int × Int) × BlockTy)) : World :=
  l.foldl (fun w p => w.setBlock p.1.1 p.1.2.1 p.1.2.2 p.2) w

/-- Downward column scan `for (ty = top; ty > stop; ty--)` returning
the first `ty` whose block satisfies `p` (fuel = number of loop
iterations). -/
def findDown (w : World) (x z : Int) (p : BlockTy → Bool) : ℕ → Int → Option Int
  | 0, _ => none
  | fuel + 1, ty =>
    if p (w.getBlock x ty z) then some ty else findDown w x z p fuel (ty - 1)

def desertTempleWrites (x y z : Int) : List ((Int × Int × Int) × BlockTy) :=
  ((rangeII (-4) 4).flatMap fun dx => (rangeII (-4) 4).flatMap fun dz =>
    [((x + dx, y, z + dz), BlockTy.TERRACOTTA), ((x + dx, y + 1, z + dz), BlockTy.TERRACOTTA)])
  ++ ((rangeII 2 6).flatMap fun dy =>
    ((rangeII (-4) 4).flatMap fun dx =>
      [((x + dx, y + dy, z - 4), BlockTy.TERRACOTTA), ((x + dx, y + dy, z + 4), BlockTy.TERRACOTTA)])
    ++ ((rangeII (-4) 4).flatMap fun dz =>
      [((x - 4, y + dy, z + dz), BlockTy.TERRACOTTA), ((x + 4, y + dy, z + dz), BlockTy.TERRACOTTA)]))
  ++ ((rangeII 2 4).flatMap fun dy =>
    [((x, y + dy, z - 4), BlockTy.AIR), ((x - 1, y + dy, z - 4), BlockTy.AIR),
     ((x + 1, y + dy, z - 4), BlockTy.AIR)])
  ++ ((rangeII (-4) 4).flatMap fun dx => (rangeII (-4) 4).map fun dz =>
    ((x + dx, y + 7, z + dz), BlockTy.TERRACOTTA))
  ++ ((rangeII 0 2).flatMap fun level =>
    (rangeII (-(2 - level)) (2 - level)).flatMap fun dx =>
      (rangeII (-(2 - level)) (2 - level)).map fun dz =>
        ((x + dx, y + 8 + level, z + dz), BlockTy.ORANGE_TERRACOTTA))
  ++ ((rangeII (-3) 3).flatMap fun dx => (rangeII (-3) 3).flatMap fun dz =>
    (rangeII 2 6).map fun dy => ((x + dx, y + dy, z + dz), BlockTy.AIR))
  ++ ((rangeII (-2) 2).flatMap fun dx => (rangeII (-2) 2).flatMap fun dz =>
    (rangeII (-5) (-1)).map fun dy => ((x + dx, y + dy, z + dz), BlockTy.AIR))
  ++ [((x, y - 4, z), BlockTy.GOLD_ORE)]

/-- Method `tryGenerateDesertTemple`: needs a sand column between y = 80 and
y = 21; builds the pyramid, registers the loot record, then places the
trap stone. -/
def tryGenerateDesertTemple (w : World) (loot : List LootChest) (x z : Int) :
    World × List LootChest :=
  match findDown w x z (fun b => b == BlockTy.SAND) 60 80 with
  | none => (w, loot)
  | some y =>
    let w1 := writeBlocks w (desertTempleWrites x y z)
    let loot1 := loot ++ [⟨x, y - 4, z,
      [⟨"diamond", 3⟩, ⟨"gold_ingot", 8⟩, ⟨"iron_ingot", 12⟩, ⟨"emerald", 5⟩]⟩]
    (w1.setBlock x (y - 3) z BlockTy.STONE, loot1)

/-- The water-column scan of `tryGenerateShipwreck`: `ty` from 60 down
while `ty > 10`, recording the first water cell (`waterSurface`) and
breaking at the first non-water non-air cell below it (`oceanFloor`);
returns `(waterSurface, oceanFloor)` with -1 for "not found". -/
def shipScan (w : World) (x z : Int) : ℕ → Int → Int → Int × Int
  | 0, _, ws => (ws, -1)
  | fuel + 1, ty, ws =>
    if ty ≤ 10 then (ws, -1)
    else
      let b := w.getBlock x ty z
      let ws2 := if b = BlockTy.WATER ∧ ws < 0 then ty else ws
      if ws2 > 0 ∧ b ≠ BlockTy.WATER ∧ b ≠ BlockTy.AIR then (ws2, ty)
      else shipScan w x z fuel (ty - 1) ws2

/-- A `setBlock` whose world x is a non-integer rational (the
fractional hull rows): the block store is dropped at the fractional
array index, `needsRebuild` is still set (if the chunk is resident and
generated and y is in range), and the z-edge neighbor marks fire.  The
fractional local x is never 0 nor 31, so no x-edge marks fire. -/
def World.setBlockFracX (w : World) (xq : ℚ) (y z : Int) : World :=
  let cx := Rat.floor (xq / 32)
  let cz := Int.fdiv z CHUNK_SIZE
  match w.getChunk cx cz with
  | none => w
  | some c =>
    if c.isGenerated then
      let lz := Int.emod z CHUNK_SIZE
      let w1 : World :=
        if y < 0 ∨ CHUNK_HEIGHT ≤ y then w
        else { w with chunks := mapSet w.chunks (cx, cz) { c with needsRebuild := true } }
      let w2 := if lz = 0 then w1.markChunkForRebuild cx (cz - 1) else w1
      if lz = CHUNK_SIZE - 1 then w2.markChunkForRebuild cx (cz + 1) else w2
    else w

/-- One `dz` row of the shipwreck hull.  `dx` runs from `-width` in
steps of 1 while `dx ≤ width`, i.e. `dx = -width + k` for
`k = 0 .. ⌊2·width⌋`.  The side planks fire when
`|dx| = ⌊width⌋`, which a fractional `dx` never satisfies. -/
def shipwreckHullRow (w : World) (x z y dz : Int) : World :=
  let width : ℚ := max 1 (3 - |((dz : ℚ))| / 3)
  let heightOffset : Int := Rat.floor (|((dz : ℚ))| * (3/10))
  (rangeII 0 (Rat.floor (2 * width))).foldl
    (fun w k =>
      let dxq : ℚ := -width + (k : ℚ)
      if dxq.den = 1 then
        let dx := dxq.num
        let w1 := w.setBlock (x + dx) (y + 1 + heightOffset) (z + dz) BlockTy.WOOD
        if |dxq| = ((Rat.floor width : Int) : ℚ) then
          (w1.setBlock (x + dx) (y + 2 + heightOffset) (z + dz) BlockTy.PLANKS).setBlock
            (x + dx) (y + 3 + heightOffset) (z + dz) BlockTy.PLANKS
        else w1
      else w.setBlockFracX ((x : ℚ) + dxq) (y + 1 + heightOffset) (z + dz))
    w

/-- Method `tryGenerateShipwreck`: scans for a water column; returns
unchanged unless a floor was found under a water surface at depth
`waterSurface - oceanFloor ≥ 5`; otherwise builds the hull, mast,
platform and chest marker and registers the loot record. -/
def tryGenerateShipwreck (w : World) (loot : List LootChest) (x z : Int) :
    World × List LootChest :=
  let scan := shipScan w x z 60 60 (-1)
  let waterSurface := scan.1
  let oceanFloor := scan.2
  if oceanFloor < 0 ∨ waterSurface < 0 then (w, loot)
  else if waterSurface - oceanFloor < 5 then (w, loot)
  else
    let y := oceanFloor
    let w1 := (rangeII (-6) 6).foldl (fun w dz => shipwreckHullRow w x z y dz) w
    let w2 := (rangeII 1 5).foldl
      (fun w dy => w.setBlock x (y + dy + 2) z BlockTy.WOOD) w1
    let w3 := (rangeII (-1) 1).foldl (fun w dx =>
      (rangeII (-1) 1).foldl (fun w dz =>
        w.setBlock (x + dx) (y + 8) (z + dz) BlockTy.PLANKS) w) w2
    let w4 := w3.setBlock x (y + 2) (z - 3) BlockTy.GOLD_ORE
    (w4, loot ++ [⟨x, y + 2, z - 3,
      [⟨"gold_ingot", 5⟩, ⟨"iron_ingot", 8⟩, ⟨"diamond", 1⟩, ⟨"emerald", 3⟩,
       ⟨"trident", 1⟩]⟩])

/-- Method `tryGenerateRuinedPortal`: needs dry ground between y = 80 and 21;
scatters brick with one `Math.random()` per cell (`dx` outer, `dz`
inner), then places the ruined frame and the loot marker. -/
def tryGenerateRuinedPortal (w : World) (loot : List LootChest) (rnd : ℕ → ℚ) (ri : ℕ)
    (x z : Int) : World × List LootChest × ℕ :=
  match findDown w x z (fun b => !(b == BlockTy.AIR || b == BlockTy.WATER)) 60 80 with
  | none => (w, loot, ri)
  | some y =>
    let sc := (rangeII (-2) 2).foldl (fun (acc : World × ℕ) dx =>
      (rangeII (-2) 2).foldl (fun (acc : World × ℕ) dz =>
        (if rnd acc.2 < 4/10 then acc.1.setBlock (x + dx) y (z + dz) BlockTy.BRICK
          else acc.1, acc.2 + 1)) acc) (w, ri)
    let w2 := writeBlocks sc.1
      [((x - 2, y + 1, z), BlockTy.BEDROCK), ((x - 2, y + 2, z), BlockTy.BEDROCK),
       ((x - 2, y + 3, z), BlockTy.BEDROCK), ((x - 2, y + 4, z), BlockTy.BEDROCK),
       ((x + 2, y + 1, z), BlockTy.BEDROCK), ((x + 2, y + 2, z), BlockTy.BEDROCK),
       ((x - 1, y + 5, z), BlockTy.BEDROCK), ((x, y + 5, z), BlockTy.BEDROCK),
       ((x + 1, y + 1, z - 1), BlockTy.GOLD_ORE)]
    (w2, loot ++ [⟨x + 1, y + 1, z - 1,
      [⟨"gold_ingot", 12⟩, ⟨"obsidian", 4⟩, ⟨"flint_and_steel", 1⟩]⟩], sc.2)

/-- The upward entrance-shaft scan of `tryGenerateDungeon`:
`for (ty = y; ty < 80; ty++)`, `surfaceY = ty - 1` at the first air or
water cell at `(x, ty, z)`, else `surfaceY = y`. -/
def findUpShaft (w : World) (x z y : Int) : Int :=
  go (81 - y).toNat y
where
  go : ℕ → Int → Int
    | 0, _ => y
    | fuel + 1, ty =>
      if 80 ≤ ty then y
      else if w.getBlock x ty z = BlockTy.AIR ∨ w.getBlock x ty z = BlockTy.WATER then ty - 1
      else go fuel (ty + 1)

/-- Method `tryGenerateDungeon`: needs underground stone between y = 40 and
11; carves the room, rolls the floor blocks (one `Math.random()` per
tile), builds walls/ceiling/markers, registers two loot records, then
digs the entrance stairs up to the surface. -/
def tryGenerateDungeon (w : World) (loot : List LootChest) (rnd : ℕ → ℚ) (ri : ℕ)
    (x z : Int) : World × List LootChest × ℕ :=
  match findDown w x z (fun b => b == BlockTy.STONE) 30 40 with
  | none => (w, loot, ri)
  | some y =>
    let w1 := (rangeII (-3) 3).foldl (fun w dx =>
      (rangeII (-3) 3).foldl (fun w dz =>
        (rangeII 0 4).foldl (fun w dy =>
          w.setBlock (x + dx) (y - dy) (z + dz) BlockTy.AIR) w) w) w
    let fl := (rangeII (-3) 3).foldl (fun (acc : World × ℕ) dx =>
      (rangeII (-3) 3).foldl (fun (acc : World × ℕ) dz =>
        (acc.1.setBlock (x + dx) (y - 5) (z + dz)
          (if rnd acc.2 < 1/2 then BlockTy.COBBLESTONE else BlockTy.STONE),
          acc.2 + 1)) acc) (w1, ri)
    let w2 := (rangeII (-4) 0).foldl (fun w dy =>
      let wA := (rangeII (-3) 3).foldl (fun w dx =>
        (w.setBlock (x + dx) (y + dy) (z - 3) BlockTy.COBBLESTONE).setBlock
          (x + dx) (y + dy) (z + 3) BlockTy.COBBLESTONE) w
      (rangeII (-3) 3).foldl (fun w dz =>
        (w.setBlock (x - 3) (y + dy) (z + dz) BlockTy.COBBLESTONE).setBlock
          (x + 3) (y + dy) (z + dz) BlockTy.COBBLESTONE) wA) fl.1
    let w3 := (rangeII (-3) 3).foldl (fun w dx =>
      (rangeII (-3) 3).foldl (fun w dz =>
        w.setBlock (x + dx) (y + 1) (z + dz) BlockTy.COBBLESTONE) w) w2
    let w4 := w3.setBlock x (y - 3) z BlockTy.COAL_ORE
    let w5 := (w4.setBlock (x - 2) (y - 4) z BlockTy.DIAMOND_ORE).setBlock
      (x + 2) (y - 4) z BlockTy.DIAMOND_ORE
    let loot1 := loot
      ++ [⟨x - 2, y - 4, z,
        [⟨"iron_ingot", 6⟩, ⟨"gold_ingot", 3⟩, ⟨"bread", 4⟩, ⟨"redstone", 8⟩]⟩]
      ++ [⟨x + 2, y - 4, z,
        [⟨"diamond", 2⟩, ⟨"golden_apple", 1⟩, ⟨"enchanted_book", 1⟩]⟩]
    let surfaceY := findUpShaft w5 x (z - 4) y
    let w6 := (rangeII 0 (surfaceY - y)).foldl (fun w step =>
      (((w.setBlock x (y + step) (z - 3 - step) BlockTy.AIR).setBlock
          x (y + step + 1) (z - 3 - step) BlockTy.AIR).setBlock
        (x - 1) (y + step) (z - 3 - step) BlockTy.COBBLESTONE).setBlock
        (x + 1) (y + step) (z - 3 - step) BlockTy.COBBLESTONE) w5
    (w6, loot1, fl.2)

def villageWellWrites (x y z : Int) : List ((Int × Int × Int) × BlockTy) :=
  ((rangeII 0 2).flatMap fun dy =>
    [((x - 1, y + dy, z - 1), BlockTy.COBBLESTONE), ((x + 1, y + dy, z - 1), BlockTy.COBBLESTONE),
     ((x - 1, y + dy, z + 1), BlockTy.COBBLESTONE), ((x + 1, y + dy, z + 1), BlockTy.COBBLESTONE)])
  ++ ((rangeII (-1) 1).flatMap fun dx => (rangeII (-1) 1).map fun dz =>
    ((x + dx, y + 3, z + dz), BlockTy.PLANKS))
  ++ [((x, y, z), BlockTy.WATER), ((x, y - 1, z), BlockTy.WATER), ((x, y - 2, z), BlockTy.WATER),
      ((x - 1, y + 4, z - 1), BlockTy.WOOD), ((x + 1, y + 4, z + 1), BlockTy.WOOD)]

def villageHouseWrites (x y z : Int) : List ((Int × Int × Int) × BlockTy) :=
  ((rangeII (-2) 2).flatMap fun dx => (rangeII (-2) 2).map fun dz =>
    ((x + dx, y, z + dz), BlockTy.COBBLESTONE))
  ++ ((rangeII 1 3).flatMap fun dy =>
    ((rangeII (-2) 2).flatMap fun dx =>
      [((x + dx, y + dy, z - 2), BlockTy.PLANKS), ((x + dx, y + dy, z + 2), BlockTy.PLANKS)])
    ++ ((rangeII (-2) 2).flatMap fun dz =>
      [((x - 2, y + dy, z + dz), BlockTy.PLANKS), ((x + 2, y + dy, z + dz), BlockTy.PLANKS)]))
  ++ ((rangeII 1 4).flatMap fun dy =>
    [((x - 2, y + dy, z - 2), BlockTy.WOOD), ((x + 2, y + dy, z - 2), BlockTy.WOOD),
     ((x - 2, y + dy, z + 2), BlockTy.WOOD), ((x + 2, y + dy, z + 2), BlockTy.WOOD)])
  ++ [((x, y + 1, z - 2), BlockTy.AIR), ((x, y + 2, z - 2), BlockTy.AIR),
      ((x, y + 2, z + 2), BlockTy.GLASS)]
  ++ ((rangeII (-1) 1).flatMap fun dx => (rangeII (-1) 1).flatMap fun dz =>
    (rangeII 1 3).map fun dy => ((x + dx, y + dy, z + dz), BlockTy.AIR))
  ++ ((rangeII (-3) 3).flatMap fun dx =>
    [((x + dx, y + 4, z - 2), BlockTy.PLANKS), ((x + dx, y + 4, z + 2), BlockTy.PLANKS),
     ((x + dx, y + 4, z - 1), BlockTy.PLANKS), ((x + dx, y + 4, z + 1), BlockTy.PLANKS),
     ((x + dx, y + 4, z), BlockTy.PLANKS)])
  ++ ((rangeII (-2) 2).map fun dx => ((x + dx, y + 5, z), BlockTy.PLANKS))
  ++ [((x, y + 2, z), BlockTy.TORCH)]

def villageFarmWrites (x y z : Int) : List ((Int × Int × Int) × BlockTy) :=
  ((rangeII (-3) 3).flatMap fun dx =>
    [((x + dx, y + 1, z - 3), BlockTy.WOOD), ((x + dx, y + 1, z + 3), BlockTy.WOOD)])
  ++ ((rangeII (-3) 3).flatMap fun dz =>
    [((x - 3, y + 1, z + dz), BlockTy.WOOD), ((x + 3, y + 1, z + dz), BlockTy.WOOD)])
  ++ ((rangeII (-2) 2).flatMap fun dx => (rangeII (-2) 2).map fun dz =>
    ((x + dx, y, z + dz), BlockTy.DIRT))
  ++ [((x, y, z), BlockTy.WATER), ((x, y + 1, z - 3), BlockTy.AIR)]

def villageChurchWrites (x y z : Int) : List ((Int × Int × Int) × BlockTy) :=
  ((rangeII (-3) 3).flatMap fun dx => (rangeII (-4) 4).map fun dz =>
    ((x + dx, y, z + dz), BlockTy.COBBLESTONE))
  ++ ((rangeII 1 5).flatMap fun dy =>
    ((rangeII (-3) 3).flatMap fun dx =>
      [((x + dx, y + dy, z - 4), BlockTy.COBBLESTONE), ((x + dx, y + dy, z + 4), BlockTy.COBBLESTONE)])
    ++ ((rangeII (-4) 4).flatMap fun dz =>
      [((x - 3, y + dy, z + dz), BlockTy.COBBLESTONE), ((x + 3, y + dy, z + dz), BlockTy.COBBLESTONE)]))
  ++ ((rangeII (-2) 2).flatMap fun dx => (rangeII (-3) 3).flatMap fun dz =>
    (rangeII 1 4).map fun dy => ((x + dx, y + dy, z + dz), BlockTy.AIR))
  ++ [((x, y + 1, z - 4), BlockTy.AIR), ((x, y + 2, z - 4), BlockTy.AIR),
      ((x - 3, y + 3, z), BlockTy.GLASS), ((x + 3, y + 3, z), BlockTy.GLASS)]
  ++ ((rangeII (-4) 4).flatMap fun dx => (rangeII (-5) 5).map fun dz =>
    ((x + dx, y + 6, z + dz), BlockTy.PLANKS))
  ++ ((rangeII 6 10).flatMap fun dy =>
    [((x - 1, y + dy, z + 2), BlockTy.COBBLESTONE), ((x + 1, y + dy, z + 2), BlockTy.COBBLESTONE),
     ((x - 1, y + dy, z + 4), BlockTy.COBBLESTONE), ((x + 1, y + dy, z + 4), BlockTy.COBBLESTONE)])
  ++ [((x, y + 9, z + 3), BlockTy.GOLD_ORE)]
  ++ ((rangeII (-1) 1).flatMap fun dx => (rangeII 2 4).map fun dz =>
    ((x + dx, y + 11, z + dz), BlockTy.PLANKS))
  ++ [((x - 2, y + 3, z), BlockTy.TORCH), ((x + 2, y + 3, z), BlockTy.TORCH)]

def villageBlacksmithWrites (x y z : Int) : List ((Int × Int × Int) × BlockTy) :=
  ((rangeII (-3) 3).flatMap fun dx => (rangeII (-2) 2).map fun dz =>
    ((x + dx, y, z + dz), BlockTy.COBBLESTONE))
  ++ ((rangeII 1 3).flatMap fun dy =>
    ((rangeII (-3) 3).flatMap fun dx =>
      [((x + dx, y + dy, z - 2), BlockTy.COBBLESTONE), ((x + dx, y + dy, z + 2), BlockTy.COBBLESTONE)])
    ++ ((rangeII (-2) 2).flatMap fun dz =>
      [((x - 3, y + dy, z + dz), BlockTy.COBBLESTONE), ((x + 3, y + dy, z + dz), BlockTy.COBBLESTONE)]))
  ++ ((rangeII (-2) 2).flatMap fun dx => (rangeII (-1) 1).flatMap fun dz =>
    (rangeII 1 2).map fun dy => ((x + dx, y + dy, z + dz), BlockTy.AIR))
  ++ [((x, y + 1, z - 2), BlockTy.AIR), ((x, y + 2, z - 2), BlockTy.AIR),
      ((x + 2, y + 1, z), BlockTy.BRICK), ((x + 2, y + 1, z + 1), BlockTy.BRICK),
      ((x + 2, y + 2, z), BlockTy.MAGMA)]
  ++ ((rangeII (-4) 4).flatMap fun dx => (rangeII (-3) 3).map fun dz =>
    ((x + dx, y + 4, z + dz), BlockTy.PLANKS))
  ++ [((x - 2, y + 1, z), BlockTy.CHEST), ((x, y + 2, z), BlockTy.TORCH)]

/-- The nested ground probe of the village code: `ty` from
`groundY + 5` down while `ty > groundY - 10`, first non-air non-water
block. -/
def villageLocalGround (w : World) (groundY x z : Int) : Option Int :=
  findDown w x z (fun b => !(b == BlockTy.AIR || b == BlockTy.WATER)) 15 (groundY + 5)

def flatProbeSteps : List Int := [-20, -10, 0, 10, 20]

def villageHeightVariation (w : World) (cX cZ groundY : Int) : Int :=
  flatProbeSteps.foldl (fun acc dx =>
    flatProbeSteps.foldl (fun acc dz =>
      match villageLocalGround w groundY (cX + dx) (cZ + dz) with
      | some ty => acc + |ty - groundY|
      | none => acc) acc) 0

def villageBuildingKind (r : ℚ) : String :=
  if r < 4/10 then "house"
  else if r < 6/10 then "farm"
  else if r < 8/10 then "church"
  else "blacksmith"

def villageBuildingWrites (kind : String) (x y z : Int) :
    List ((Int × Int × Int) × BlockTy) :=
  if kind = "house" then villageHouseWrites x y z
  else if kind = "farm" then villageFarmWrites x y z
  else if kind = "church" then villageChurchWrites x y z
  else villageBlacksmithWrites x y z

/-- The building placement while-loop of one path direction:
`buildingDist` from 6 while `< pathLength - 4`.  Each iteration draws
one offset sample (for the coordinate perpendicular to the path), one
building-type sample, and one distance-increment sample.  Increments
are at least 8, so the fuel 24 is never exhausted before the loop
condition fails. -/
def villageBuildLoop (cX cZ groundY pathLength : Int) (dirX dirZ : Int) :
    ℕ → Int → World × List (Int × Int × String) × Int →
      World × List (Int × Int × String) × Int
  | 0, _, st => st
  | fuel + 1, buildingDist, st =>
    if buildingDist < pathLength - 4 then
      let s1 := sgRandStep st.2.2
      let buildX := cX + dirX * buildingDist +
        (if dirZ ≠ 0 then 0 else if s1.2 > 1/2 then 5 else -5)
      let seedA := if dirZ ≠ 0 then st.2.2 else s1.1
      let s2 := sgRandStep seedA
      let buildZ := cZ + dirZ * buildingDist +
        (if dirX ≠ 0 then 0 else if s2.2 > 1/2 then 5 else -5)
      let seedB := if dirX ≠ 0 then seedA else s2.1
      let buildY := (villageLocalGround st.1 groundY buildX buildZ).getD groundY
      let s3 := sgRandStep seedB
      let kind := villageBuildingKind s3.2
      let w1 := writeBlocks st.1 (villageBuildingWrites kind buildX buildY buildZ)
      let bps1 := st.2.1 ++ [(buildX, buildZ, kind)]
      let s4 := sgRandStep s3.1
      villageBuildLoop cX cZ groundY pathLength dirX dirZ fuel
        (buildingDist + 8 + Rat.floor (s4.2 * 5)) (w1, bps1, s4.1)
    else st

/-- One path direction: draw the path length, place the cobblestone
path (probing local ground as it goes), then run the building loop. -/
def villagePathDir (cX cZ groundY : Int) (dirX dirZ : Int)
    (st : World × List (Int × Int × String) × Int) :
    World × List (Int × Int × String) × Int :=
  let s1 := sgRandStep st.2.2
  let pathLength := 15 + Rat.floor (s1.2 * 10)
  let w1 := (rangeII 1 pathLength).foldl (fun w i =>
    let pathX := cX + dirX * i
    let pathZ := cZ + dirZ * i
    let pathY := (villageLocalGround w groundY pathX pathZ).getD groundY
    w.setBlock pathX pathY pathZ BlockTy.COBBLESTONE) st.1
  villageBuildLoop cX cZ groundY pathLength dirX dirZ 24 6 (w1, st.2.1, s1.1)

/-- Method `tryGenerateVillage`: gated on a grass/dirt column between y = 80
and 31 and on flatness (`heightVariation ≤ 30`); then builds the well
and four paths with buildings, and registers the village record. -/
def tryGenerateVillage (w : World) (villages : List VillageLocation) (wx wz : Int) :
    World × List VillageLocation :=
  let cX := wx + 16
  let cZ := wz + 16
  match findDown w cX cZ (fun b => b == BlockTy.GRASS || b == BlockTy.DIRT) 50 80 with
  | none => (w, villages)
  | some groundY =>
    if villageHeightVariation w cX cZ groundY > 30 then (w, villages)
    else
      let w1 := writeBlocks w (villageWellWrites cX groundY cZ)
      let st0 : World × List (Int × Int × String) × Int :=
        (w1, [], cX * 31337 + cZ * 73856)
      let st1 := villagePathDir cX cZ groundY 1 0 st0
      let st2 := villagePathDir cX cZ groundY (-1) 0 st1
      let st3 := villagePathDir cX cZ groundY 0 1 st2
      let st4 := villagePathDir cX cZ groundY 0 (-1) st3
      (st4.1, villages ++ [⟨cX, cZ, st4.2.1⟩])

/-- Method `StructureGenerator.generateStructures(chunk)`: returns unchanged
when the chunk key was already processed; otherwise records the key
first, then rolls the five structure kinds with their coordinate-seeded
frequencies, threading the world, the loot list, the village list and
the `Math.random()` index. -/
def generateStructures (sg : SGState) (w : World) (c : Chunk) (rnd : ℕ → ℚ) (ri : ℕ) :
    SGState × World × ℕ :=
  if (c.chunkX, c.chunkZ) ∈ sg.generatedStructures then (sg, w, ri)
  else
    let sg1 : SGState :=
      { sg with generatedStructures := (c.chunkX, c.chunkZ) :: sg.generatedStructures }
    let wx := c.chunkX * CHUNK_SIZE
    let wz := c.chunkZ * CHUNK_SIZE
    let r1 : World × List LootChest :=
      if shouldGenerateStructure c.chunkX c.chunkZ (2/100) 12345 then
        tryGenerateDesertTemple w sg1.lootChests (wx + 8) (wz + 8)
      else (w, sg1.lootChests)
    let r2 : World × List LootChest :=
      if shouldGenerateStructure c.chunkX c.chunkZ (3/100) 54321 then
        tryGenerateShipwreck r1.1 r1.2 (wx + 8) (wz + 8)
      else r1
    let r3 : World × List LootChest × ℕ :=
      if shouldGenerateStructure c.chunkX c.chunkZ (1/100) 99999 then
        tryGenerateRuinedPortal r2.1 r2.2 rnd ri (wx + 8) (wz + 8)
      else (r2.1, r2.2, ri)
    let r4 : World × List LootChest × ℕ :=
      if shouldGenerateStructure c.chunkX c.chunkZ (25/1000) 77777 then
        tryGenerateDungeon r3.1 r3.2.1 rnd r3.2.2 (wx + 8) (wz + 8)
      else r3
    let r5 : World × List VillageLocation :=
      if shouldGenerateStructure c.chunkX c.chunkZ (8/1000) 55555 then
        tryGenerateVillage r4.1 sg1.villageLocations wx wz
      else (r4.1, sg1.villageLocations)
    ({ sg1 with lootChests := r4.2.1, villageLocations := r5.2 }, r5.1, r4.2.2)

/-- The first call always leaves the chunk's key in the processed set
(the `Set.add` runs before any structure rolls, and none of the
builders touch the set). -/
theorem generateStructures_key_mem (sg : SGState) (w : World) (c : Chunk)
    (rnd : ℕ → ℚ) (ri : ℕ) :
    (c.chunkX, c.chunkZ) ∈ (generateStructures sg w c rnd ri).1.generatedStructures := by
  unfold generateStructures
  split
  · assumption
  · exact List.mem_cons_self _ _

theorem generateStructures_of_mem (sg : SGState) (w : World) (c : Chunk)
    (rnd : ℕ → ℚ) (ri : ℕ) (h : (c.chunkX, c.chunkZ) ∈ sg.generatedStructures) :
    generateStructures sg w c rnd ri = (sg, w, ri) := by
  unfold generateStructures
  rw [if_pos h]

/-- C4: the function `generateStructures` is idempotent per chunk coordinate:
after a first call on chunk `c`, a second call for the same chunk
coordinates (even on a freshly regenerated `Chunk` instance `c'`, and
whatever the `Math.random()` state) changes neither the structure
state nor the world, performs no block writes, appends no loot or
village records, and consumes no random samples. -/
theorem generateStructures_idempotent (sg : SGState) (w : World) (c c' : Chunk)
    (rnd rnd' : ℕ → ℚ) (ri ri' : ℕ)
    (hx : c'.chunkX = c.chunkX) (hz : c'.chunkZ = c.chunkZ) :
    generateStructures (generateStructures sg w c rnd ri).1
        (generateStructures sg w c rnd ri).2.1 c' rnd' ri' =
      ((generateStructures sg w c rnd ri).1,
        (generateStructures sg w c rnd ri).2.1, ri') :=
  generateStructures_of_mem _ _ _ _ _
    (by rw [hx, hz]; exact generateStructures_key_mem sg w c rnd ri)

/-- C4 witness: concrete instantiation on an empty world and two
fresh chunk instances at (0, 0). -/
theorem generateStructures_idempotent_witness :
    generateStructures
        (generateStructures ⟨[], [], [], false⟩ ⟨[], [], [], 6⟩ (Chunk.new 0 0)
          (fun _ => 0) 0).1
        (generateStructures ⟨[], [], [], false⟩ ⟨[], [], [], 6⟩ (Chunk.new 0 0)
          (fun _ => 0) 0).2.1 (Chunk.new 0 0) (fun _ => 1/2) 7 =
      ((generateStructures ⟨[], [], [], false⟩ ⟨[], [], [], 6⟩ (Chunk.new 0 0)
          (fun _ => 0) 0).1,
        (generateStructures ⟨[], [], [], false⟩ ⟨[], [], [], 6⟩ (Chunk.new 0 0)
          (fun _ => 0) 0).2.1, 7) :=
  generateStructures_idempotent ⟨[], [], [], false⟩ ⟨[], [], [], 6⟩
    (Chunk.new 0 0) (Chunk.new 0 0) (fun _ => 0) (fun _ => 1/2) 0 7 rfl rfl

/-- One unrolling of the shipwreck scan loop. -/
theorem shipScan_step (w : World) (x z : Int) (fuel : ℕ) (ty ws : Int) :
    shipScan w x z (fuel + 1) ty ws =
      if ty ≤ 10 then (ws, -1)
      else
        if (if w.getBlock x ty z = BlockTy.WATER ∧ ws < 0 then ty else ws) > 0 ∧
            w.getBlock x ty z ≠ BlockTy.WATER ∧ w.getBlock x ty z ≠ BlockTy.AIR then
          ((if w.getBlock x ty z = BlockTy.WATER ∧ ws < 0 then ty else ws), ty)
        else
          shipScan w x z fuel (ty - 1)
            (if w.getBlock x ty z = BlockTy.WATER ∧ ws < 0 then ty else ws) := rfl

/-- Scanning down through air cells above the water surface leaves the
accumulator at -1. -/
theorem shipScan_air (w : World) (x z ws : Int) (hws : 10 < ws) :
    ∀ (n f : ℕ), (∀ ty : Int, ws < ty → ty ≤ ws + n → w.getBlock x ty z = BlockTy.AIR) →
      shipScan w x z (n + f) (ws + (n : Int)) (-1) = shipScan w x z f ws (-1) := by
  intro n
  induction n with
  | zero => intro f _; norm_num
  | succ n ih =>
    intro f hair
    have hb : w.getBlock x (ws + ((n : Int) + 1)) z = BlockTy.AIR :=
      hair (ws + ((n : Int) + 1)) (by omega) (by push_cast; omega)
    have e1 : (n + 1 + f) = (n + f) + 1 := by omega
    rw [show ((n + 1 : ℕ) : Int) = (n : Int) + 1 from by push_cast; ring, e1, shipScan_step]
    rw [if_neg (by omega : ¬(ws + ((n : Int) + 1) ≤ 10))]
    rw [hb]
    rw [if_neg (by decide : ¬(BlockTy.AIR = BlockTy.WATER ∧ (-1 : Int) < 0))]
    rw [if_neg (by decide :
      ¬((-1 : Int) > 0 ∧ BlockTy.AIR ≠ BlockTy.WATER ∧ BlockTy.AIR ≠ BlockTy.AIR))]
    rw [show ws + ((n : Int) + 1) - 1 = ws + (n : Int) from by ring]
    exact ih f (fun ty h1 h2 => hair ty h1 (by omega))

/-- Scanning down through water cells below the recorded surface keeps
the accumulator. -/
theorem shipScan_water (w : World) (x z ws fl : Int) (hfl : 10 < fl) (hwspos : 0 < ws) :
    ∀ (m f : ℕ), (∀ ty : Int, fl < ty → ty ≤ fl + m → w.getBlock x ty z = BlockTy.WATER) →
      shipScan w x z (m + f) (fl + (m : Int)) ws = shipScan w x z f fl ws := by
  intro m
  induction m with
  | zero => intro f _; norm_num
  | succ m ih =>
    intro f hwater
    have hb : w.getBlock x (fl + ((m : Int) + 1)) z = BlockTy.WATER :=
      hwater (fl + ((m : Int) + 1)) (by omega) (by push_cast; omega)
    have e1 : (m + 1 + f) = (m + f) + 1 := by omega
    rw [show ((m + 1 : ℕ) : Int) = (m : Int) + 1 from by push_cast; ring, e1, shipScan_step]
    rw [if_neg (by omega : ¬(fl + ((m : Int) + 1) ≤ 10))]
    rw [hb]
    rw [if_neg (by rintro ⟨-, h2⟩; omega :
      ¬(BlockTy.WATER = BlockTy.WATER ∧ ws < 0))]
    rw [if_neg (by rintro ⟨-, h2, -⟩; exact h2 rfl :
      ¬(ws > 0 ∧ BlockTy.WATER ≠ BlockTy.WATER ∧ BlockTy.WATER ≠ BlockTy.AIR))]
    rw [show fl + ((m : Int) + 1) - 1 = fl + (m : Int) from by ring]
    exact ih f (fun ty h1 h2 => hwater ty h1 (by omega))

/-- The scan on a column that is air down to the water surface `ws`,
water from `ws` down to just above `fl`, and stone at `fl` (all within
the scanned band 60 ≥ ws > fl > 10) returns `(ws, fl)`. -/
theorem shipScan_spec (w : World) (x z ws fl : Int)
    (hfl : 10 < fl) (hlt : fl < ws) (hws : ws ≤ 60)
    (hair : ∀ ty : Int, ws < ty → ty ≤ 60 → w.getBlock x ty z = BlockTy.AIR)
    (hwater : ∀ ty : Int, fl < ty → ty ≤ ws → w.getBlock x ty z = BlockTy.WATER)
    (hfloor : w.getBlock x fl z = BlockTy.STONE) :
    shipScan w x z 60 60 (-1) = (ws, fl) := by
  have h1 : shipScan w x z 60 60 (-1) = shipScan w x z ws.toNat ws (-1) := by
    rw [show (60 : Int) = ws + (((60 - ws).toNat : ℕ) : Int) from by omega]
    rw [show (60 : ℕ) = (60 - ws).toNat + ws.toNat from by omega]
    exact shipScan_air w x z ws (by omega) (60 - ws).toNat ws.toNat
      (fun ty ha hb => hair ty ha (by omega))
  have hbw : w.getBlock x ws z = BlockTy.WATER := hwater ws hlt (le_refl ws)
  have h2 : shipScan w x z ws.toNat ws (-1) = shipScan w x z (ws.toNat - 1) (ws - 1) ws := by
    rw [show ws.toNat = (ws.toNat - 1) + 1 from by omega, shipScan_step]
    rw [if_neg (by omega : ¬(ws ≤ 10))]
    rw [hbw]
    rw [if_pos (show BlockTy.WATER = BlockTy.WATER ∧ (-1 : Int) < 0 from
      ⟨rfl, by norm_num⟩)]
    rw [if_neg (by rintro ⟨-, h2, -⟩; exact h2 rfl :
      ¬(ws > 0 ∧ BlockTy.WATER ≠ BlockTy.WATER ∧ BlockTy.WATER ≠ BlockTy.AIR))]
    rw [show ws.toNat - 1 + 1 - 1 = ws.toNat - 1 from by omega]
  have h3 : shipScan w x z (ws.toNat - 1) (ws - 1) ws = shipScan w x z fl.toNat fl ws := by
    rw [show ws - 1 = fl + (((ws - 1 - fl).toNat : ℕ) : Int) from by omega]
    rw [show ws.toNat - 1 = (ws - 1 - fl).toNat + fl.toNat from by omega]
    exact shipScan_water w x z ws fl (by omega) (by omega) (ws - 1 - fl).toNat fl.toNat
      (fun ty ha hb => hwater ty ha (by omega))
  have h4 : shipScan w x z fl.toNat fl ws = (ws, fl) := by
    rw [show fl.toNat = (fl.toNat - 1) + 1 from by omega, shipScan_step]
    rw [if_neg (by omega : ¬(fl ≤ 10))]
    rw [hfloor]
    rw [if_neg (by rintro ⟨h, -⟩; exact absurd h (by decide) :
      ¬(BlockTy.STONE = BlockTy.WATER ∧ ws < 0))]
    rw [if_pos (show ws > 0 ∧ BlockTy.STONE ≠ BlockTy.WATER ∧ BlockTy.STONE ≠ BlockTy.AIR
      from ⟨by omega, by decide, by decide⟩)]
  rw [h1, h2, h3, h4]

/-- C8: shipwreck placement is gated on water depth: over a
column with topmost water at `ws` and first non-water non-air block
(stone) at `fl` with depth `ws - fl < 5`, `tryGenerateShipwreck`
places no blocks and registers no loot record — the world and the loot
list are returned unchanged. -/
theorem shipwreck_depth_gate (w : World) (loot : List LootChest) (x z ws fl : Int)
    (hfl : 10 < fl) (hlt : fl < ws) (hws : ws ≤ 60) (hdepth : ws - fl < 5)
    (hair : ∀ ty : Int, ws < ty → ty ≤ 60 → w.getBlock x ty z = BlockTy.AIR)
    (hwater : ∀ ty : Int, fl < ty → ty ≤ ws → w.getBlock x ty z = BlockTy.WATER)
    (hfloor : w.getBlock x fl z = BlockTy.STONE) :
    tryGenerateShipwreck w loot x z = (w, loot) := by
  unfold tryGenerateShipwreck
  simp only [shipScan_spec w x z ws fl hfl hlt hws hair hwater hfloor]
  rw [if_neg (by rintro (h | h) <;> omega : ¬(fl < 0 ∨ ws < 0))]
  rw [if_pos hdepth]

/-- The world of the C8 witness: one generated chunk at (0,0) whose
blocks (by flat index, i.e. by layer) are stone up to y = 29, water
for y = 30..33 (depth 4), air above. -/
def shipChunk : Chunk :=
  { Chunk.new 0 0 with
    blocks := fun i =>
      if i < 30720 then BlockTy.STONE else if i < 34816 then BlockTy.WATER
      else BlockTy.AIR,
    isGenerated := true }

def shipWorld : World := ⟨[((0, 0), shipChunk)], [], [], 6⟩

theorem shipWorld_getBlock (ty : Int) (h0 : 0 ≤ ty) (h1 : ty < 128) :
    shipWorld.getBlock 8 ty 8 =
      (if ty ≤ 29 then BlockTy.STONE else if ty ≤ 33 then BlockTy.WATER
        else BlockTy.AIR) := by
  have e : shipWorld.getChunk (Int.fdiv 8 CHUNK_SIZE) (Int.fdiv 8 CHUNK_SIZE) =
      some shipChunk := rfl
  unfold World.getBlock
  simp only [e]
  rw [if_pos (show shipChunk.isGenerated = true from rfl)]
  rw [show Int.emod 8 CHUNK_SIZE = 8 from by decide]
  show (if (8 : Int) < 0 ∨ CHUNK_SIZE ≤ 8 ∨ ty < 0 ∨ CHUNK_HEIGHT ≤ ty ∨ (8 : Int) < 0 ∨
      CHUNK_SIZE ≤ 8 then BlockTy.AIR
    else shipChunk.blocks (Chunk.getBlockIndex 8 ty 8)) = _
  unfold CHUNK_SIZE CHUNK_HEIGHT
  rw [if_neg (by omega)]
  show (if Chunk.getBlockIndex 8 ty 8 < 30720 then BlockTy.STONE
    else if Chunk.getBlockIndex 8 ty 8 < 34816 then BlockTy.WATER else BlockTy.AIR) = _
  unfold Chunk.getBlockIndex CHUNK_SIZE
  split_ifs <;> first | rfl | omega

/-- C8 witness: a water column of depth 4 (water at y = 30..33)
above stone never spawns a shipwreck: the call leaves the world and
the loot registry unchanged. -/
theorem shipwreck_depth_gate_witness :
    tryGenerateShipwreck shipWorld [] 8 8 = (shipWorld, []) :=
  shipwreck_depth_gate shipWorld [] 8 8 33 29 (by decide) (by decide) (by decide)
    (by decide)
    (fun ty ha hb => by
      rw [shipWorld_getBlock ty (by omega) (by omega)]
      rw [if_neg (by omega), if_neg (by omega)])
    (fun ty ha hb => by
      rw [shipWorld_getBlock ty (by omega) (by omega)]
      rw [if_neg (by omega), if_pos (by omega)])
    (by
      rw [shipWorld_getBlock 29 (by decide) (by decide)]
      rw [if_pos (by decide)])

/-! ## Chunk streaming (`world.ts`, `updateChunks`)

`updateChunks` is modelled for the overworld dimension (the default;
the claims exercise no other).  The instrumentation log records one
event per generated, meshed, and evicted chunk, in execution order.
Queue entries carry the squared distance as priority (the source
stores `Math.sqrt`, compared by subtraction; squared distances order
and tie exactly alike), and the JS stable `Array.sort` is modelled by
a stable insertion sort.  `chunksToRebuild` holds keys where the
source holds object references; within a tick every queued reference
denotes the chunk resident under that key (entries are enqueued right
after `chunks.set`), so the key lookup is equivalent.  Scene/torch
light bookkeeping is rendering-side and omitted. -/

inductive WEvent
  | gen : Int × Int → WEvent
  | mesh : Int × Int → WEvent
  | evict : Int × Int → WEvent
deriving DecidableEq

def WEvent.isGen : WEvent → Bool
  | .gen _ => true
  | _ => false

def WEvent.isMesh : WEvent → Bool
  | .mesh _ => true
  | _ => false

def WEvent.isEvict : WEvent → Bool
  | .evict _ => true
  | _ => false

/-- Phase (1): append every coordinate within the render-distance
square that has no resident chunk, tagged with its squared distance
(`dx` outer, `dz` inner). -/
def World.enqueueMissing (w : World) (ccx ccz : Int) : World :=
  { w with chunksToGenerate := w.chunksToGenerate ++
      ((rangeII (-w.renderDistance) w.renderDistance).flatMap (fun dx =>
        (rangeII (-w.renderDistance) w.renderDistance).flatMap (fun dz =>
          if (mapGet w.chunks (ccx + dx, ccz + dz)).isSome then []
          else [(ccx + dx, ccz + dz, dx * dx + dz * dz)]))) }

/-- Stable insertion keeping existing equal-priority entries first. -/
def insertByPriority (e : Int × Int × Int) : List (Int × Int × Int) → List (Int × Int × Int)
  | [] => [e]
  | f :: rest => if f.2.2 ≤ e.2.2 then f :: insertByPriority e rest else e :: f :: rest

/-- Phase (2): `sort((a, b) => a.priority - b.priority)`, stable. -/
def sortByPriority (l : List (Int × Int × Int)) : List (Int × Int × Int) :=
  l.foldl (fun acc e => insertByPriority e acc) []

/-- Phase (3): pop up to `chunksPerFrame = 2` entries; for each not yet
resident key, create the chunk, generate terrain, stamp structures
(note: the source calls `generateStructures` *before* `chunks.set`, so
structure writes into the triggering chunk itself are dropped by the
`setBlock` no-op), insert into the map, and enqueue for rebuild. -/
def genLoop (tg : TerrainGen) (rnd : ℕ → ℚ) :
    ℕ → World → SGState → ℕ → List WEvent → World × SGState × ℕ × List WEvent
  | 0, w, sg, ri, log => (w, sg, ri, log)
  | i + 1, w, sg, ri, log =>
    match hq : w.chunksToGenerate with
    | [] => (w, sg, ri, log)
    | e :: rest =>
      let w0 : World := { w with chunksToGenerate := rest }
      if (mapGet w0.chunks (e.1, e.2.1)).isSome then
        genLoop tg rnd i w0 sg ri log
      else
        let g := tg.generateChunk rnd ri (Chunk.new e.1 e.2.1)
        let r := generateStructures sg w0 g.1 rnd g.2
        let w1 : World := { r.2.1 with
          chunks := mapSet r.2.1.chunks (e.1, e.2.1) g.1,
          chunksToRebuild := r.2.1.chunksToRebuild ++ [(e.1, e.2.1)] }
        genLoop tg rnd i w1 r.1 r.2.2 (log ++ [WEvent.gen (e.1, e.2.1)])

/-- Method `rebuildChunkMesh`: rebuild one resident chunk's mesh with the
world-level neighbor lookup, replacing it in the map. -/
def World.rebuildChunkMesh (w : World) (k : Int × Int) : World :=
  match mapGet w.chunks k with
  | none => w
  | some c =>
    let c2 := (c.buildMesh (fun wx wy wz => w.getBlock wx wy wz)).chunk
    { w with chunks := mapSet w.chunks k c2 }

/-- Phase (4a): walk the resident chunks in map (insertion) order,
rebuilding dirty generated ones while fewer than
`rebuildsPerFrame = 4` rebuilds have run. -/
def meshExistingLoop : List (Int × Int) → World → ℕ → List WEvent →
    World × ℕ × List WEvent
  | [], w, rebuilds, log => (w, rebuilds, log)
  | k :: ks, w, rebuilds, log =>
    match mapGet w.chunks k with
    | none => meshExistingLoop ks w rebuilds log
    | some c =>
      if c.needsRebuild = true ∧ c.isGenerated = true ∧ rebuilds < 4 then
        meshExistingLoop ks (w.rebuildChunkMesh k) (rebuilds + 1)
          (log ++ [WEvent.mesh k])
      else meshExistingLoop ks w rebuilds log

/-- Phase (4b): drain the just-generated queue while the budget lasts
(the `while` condition is checked before each shift; a popped chunk is
rebuilt only if still dirty). -/
def meshQueueLoop : ℕ → World → ℕ → List WEvent → World × ℕ × List WEvent
  | 0, w, rebuilds, log => (w, rebuilds, log)
  | fuel + 1, w, rebuilds, log =>
    if rebuilds < 4 then
      match w.chunksToRebuild with
      | [] => (w, rebuilds, log)
      | k :: rest =>
        let w0 : World := { w with chunksToRebuild := rest }
        match mapGet w0.chunks k with
        | none => meshQueueLoop fuel w0 rebuilds log
        | some c =>
          if c.needsRebuild then
            meshQueueLoop fuel (w0.rebuildChunkMesh k) (rebuilds + 1)
              (log ++ [WEvent.mesh k])
          else meshQueueLoop fuel w0 rebuilds log
    else (w, rebuilds, log)

/-- Phase (5): evict every resident chunk beyond
`renderDistance + 2` (squared-distance comparison). -/
def evictLoop (ccx ccz unload2 : Int) : List (Int × Int) → World → List WEvent →
    World × List WEvent
  | [], w, log => (w, log)
  | k :: ks, w, log =>
    match mapGet w.chunks k with
    | none => evictLoop ccx ccz unload2 ks w log
    | some c =>
      if (c.chunkX - ccx) * (c.chunkX - ccx) + (c.chunkZ - ccz) * (c.chunkZ - ccz) >
          unload2 then
        evictLoop ccx ccz unload2 ks { w with chunks := mapDelete w.chunks k }
          (log ++ [WEvent.evict k])
      else evictLoop ccx ccz unload2 ks w log

/-- Method `World.updateChunks(playerX, playerZ)` (overworld), instrumented
with the event log; returns the world, the structure state, the
advanced random index, and the log. -/
def World.updateChunks (w : World) (sg : SGState) (tg : TerrainGen) (rnd : ℕ → ℚ)
    (ri : ℕ) (playerX playerZ : ℚ) : World × SGState × ℕ × List WEvent :=
  let ccx := Rat.floor (playerX / 32)
  let ccz := Rat.floor (playerZ / 32)
  let w1 := w.enqueueMissing ccx ccz
  let w2 : World := { w1 with chunksToGenerate := sortByPriority w1.chunksToGenerate }
  let g := genLoop tg rnd 2 w2 sg ri []
  let m1 := meshExistingLoop (g.1.chunks.map Prod.fst) g.1 0 []
  let m2 := meshQueueLoop m1.1.chunksToRebuild.length m1.1 m1.2.1 []
  let unload := w.renderDistance + 2
  let ev := evictLoop ccx ccz (unload * unload) (m2.1.chunks.map Prod.fst) m2.1 []
  (ev.1, g.2.1, g.2.2.1, g.2.2.2 ++ m1.2.2 ++ m2.2.2 ++ ev.2)

theorem genLoop_log (tg : TerrainGen) (rnd : ℕ → ℚ) :
    ∀ (i : ℕ) (w : World) (sg : SGState) (ri : ℕ) (log : List WEvent) (e : WEvent),
      e ∈ (genLoop tg rnd i w sg ri log).2.2.2 → e ∈ log ∨ e.isGen = true := by
  intro i
  induction i with
  | zero => intro w sg ri log e he; exact Or.inl he
  | succ i ih =>
    intro w sg ri log e he
    rw [genLoop] at he
    revert he
    split
    · intro he; exact Or.inl he
    · dsimp only
      split
      · intro he; exact ih _ _ _ _ _ he
      · intro he
        rcases ih _ _ _ _ _ he with h | h
        · rcases List.mem_append.mp h with h | h
          · exact Or.inl h
          · right
            rw [List.mem_singleton.mp h]
            rfl
        · exact Or.inr h

theorem meshExistingLoop_log :
    ∀ (ks : List (Int × Int)) (w : World) (r : ℕ) (log : List WEvent) (e : WEvent),
      e ∈ (meshExistingLoop ks w r log).2.2 → e ∈ log ∨ e.isMesh = true := by
  intro ks
  induction ks with
  | nil => intro w r log e he; exact Or.inl he
  | cons k ks ih =>
    intro w r log e he
    rw [meshExistingLoop] at he
    revert he
    split
    · intro he; exact ih _ _ _ _ he
    · split
      · intro he
        rcases ih _ _ _ _ he with h | h
        · rcases List.mem_append.mp h with h | h
          · exact Or.inl h
          · right
            rw [List.mem_singleton.mp h]
            rfl
        · exact Or.inr h
      · intro he; exact ih _ _ _ _ he

theorem meshQueueLoop_log :
    ∀ (fuel : ℕ) (w : World) (r : ℕ) (log : List WEvent) (e : WEvent),
      e ∈ (meshQueueLoop fuel w r log).2.2 → e ∈ log ∨ e.isMesh = true := by
  intro fuel
  induction fuel with
  | zero => intro w r log e he; exact Or.inl he
  | succ fuel ih =>
    intro w r log e he
    rw [meshQueueLoop] at he
    revert he
    split
    · split
      · intro he; exact Or.inl he
      · dsimp only
        split
        · intro he; exact ih _ _ _ _ he
        · split
          · intro he
            rcases ih _ _ _ _ he with h | h
            · rcases List.mem_append.mp h with h | h
              · exact Or.inl h
              · right
                rw [List.mem_singleton.mp h]
                rfl
            · exact Or.inr h
          · intro he; exact ih _ _ _ _ he
    · intro he; exact Or.inl he

theorem evictLoop_log (ccx ccz u2 : Int) :
    ∀ (ks : List (Int × Int)) (w : World) (log : List WEvent) (e : WEvent),
      e ∈ (evictLoop ccx ccz u2 ks w log).2 → e ∈ log ∨ e.isEvict = true := by
  intro ks
  induction ks with
  | nil => intro w log e he; exact Or.inl he
  | cons k ks ih =>
    intro w log e he
    rw [evictLoop] at he
    revert he
    split
    · intro he; exact ih _ _ _ he
    · split
      · intro he
        rcases ih _ _ _ he with h | h
        · rcases List.mem_append.mp h with h | h
          · exact Or.inl h
          · right
            rw [List.mem_singleton.mp h]
            rfl
        · exact Or.inr h
      · intro he; exact ih _ _ _ he

theorem phase_split (g m1 m2 ev : List WEvent)
    (hg : ∀ e ∈ g, WEvent.isGen e = true)
    (hm1 : ∀ e ∈ m1, WEvent.isMesh e = true)
    (hm2 : ∀ e ∈ m2, WEvent.isMesh e = true)
    (hev : ∀ e ∈ ev, WEvent.isEvict e = true) :
    ∃ l1 l2 l3, g ++ m1 ++ m2 ++ ev = l1 ++ l2 ++ l3 ∧
      (∀ e ∈ l1, WEvent.isGen e = true) ∧ (∀ e ∈ l2, WEvent.isMesh e = true) ∧
      (∀ e ∈ l3, WEvent.isEvict e = true) := by
  refine ⟨g, m1 ++ m2, ev, by simp [List.append_assoc], hg, ?_, hev⟩
  intro e he
  rcases List.mem_append.mp he with h | h
  · exact hm1 e h
  · exact hm2 e h

/-- C9 amended: within one `updateChunks` call the event log
decomposes into a generation phase, then a meshing phase, then an
eviction phase: all generation precedes all meshing precedes all
eviction.  (The claim's consequence — that a chunk generated this tick
is never evicted this tick unmeshed — does *not* follow; see the
counterexample.) -/
theorem updateChunks_phase_order (w : World) (sg : SGState) (tg : TerrainGen)
    (rnd : ℕ → ℚ) (ri : ℕ) (px pz : ℚ) :
    ∃ l1 l2 l3, (w.updateChunks sg tg rnd ri px pz).2.2.2 = l1 ++ l2 ++ l3 ∧
      (∀ e ∈ l1, WEvent.isGen e = true) ∧ (∀ e ∈ l2, WEvent.isMesh e = true) ∧
      (∀ e ∈ l3, WEvent.isEvict e = true) := by
  unfold World.updateChunks
  refine phase_split _ _ _ _ ?_ ?_ ?_ ?_
  · intro e he
    rcases genLoop_log tg rnd 2 _ sg ri [] e he with h | h
    · exact absurd h (List.not_mem_nil e)
    · exact h
  · intro e he
    rcases meshExistingLoop_log _ _ 0 [] e he with h | h
    · exact absurd h (List.not_mem_nil e)
    · exact h
  · intro e he
    rcases meshQueueLoop_log _ _ _ [] e he with h | h
    · exact absurd h (List.not_mem_nil e)
    · exact h
  · intro e he
    rcases evictLoop_log _ _ _ _ _ [] e he with h | h
    · exact absurd h (List.not_mem_nil e)
    · exact h

/-- Zero noise oracles: every biome is plains, surface height 45, no
ores, no caves, no trees, and no `Math.random()` consumption. -/
def tgPlains : TerrainGen :=
  { noise2D := fun _ _ => 0
    noise3D := fun _ _ _ => 0
    caveNoise := fun _ _ _ => 0
    caveNoise2 := fun _ _ _ => 0
    ravinNoise := fun _ _ _ => 0
    treeNoise := fun _ _ => 0 }

def mkResidentChunk (cx cz : Int) (dirty : Bool) : Chunk :=
  { Chunk.new cx cz with isGenerated := true, needsRebuild := dirty }

/-- Resident keys of the C9 counterexample: the full render square of
radius 5 around the origin *except* the corner (-5, -5) (whose
distance √50 exceeds the unload distance 5 + 2 = 7, making it the one
chunk both generated and evicted this tick). -/
def c9Keys : List (Int × Int) :=
  ((rangeII (-5) 5).flatMap (fun cx => (rangeII (-5) 5).map (fun cz => (cx, cz)))).filter
    (fun k => !(decide (k = ((-5 : Int), (-5 : Int)))))

/-- The C9 counterexample world: render distance 5; every chunk of the
square except the corner (-5, -5) resident and generated; four of them
— iterated before any newly appended chunk — still dirty, which
exhausts the 4-per-tick rebuild budget. -/
def c9World : World :=
  ⟨c9Keys.map (fun k => (k, mkResidentChunk k.1 k.2
      (decide (k = (0, 1) ∨ k = (0, 2) ∨ k = (0, 3) ∨ k = (0, 4))))), [], [], 5⟩

/-- The one `updateChunks` tick of the C9 counterexample: fresh
structure state, plains terrain, player at the origin. -/
def c9Run : World × SGState × ℕ × List WEvent :=
  c9World.updateChunks ⟨[], [], [], false⟩ tgPlains (fun _ => 0) 0 0 0

set_option maxRecDepth 1000000 in
set_option maxHeartbeats 4000000 in
/-- The tick's full event log, evaluated once: corner (-5, -5) is
generated, the four older dirty chunks consume the rebuild budget, and
the eviction sweep removes all four corners — the just-generated one
included. -/
theorem c9Run_log :
    c9Run.2.2.2 =
      [WEvent.gen (-5, -5), WEvent.mesh (0, 1), WEvent.mesh (0, 2), WEvent.mesh (0, 3),
        WEvent.mesh (0, 4), WEvent.evict (-5, 5), WEvent.evict (5, -5), WEvent.evict (5, 5),
        WEvent.evict (-5, -5)] := by
  decide

/-- C9 counterexample: with the player at the origin, corner
chunk (-5,-5) is generated this tick (it is the one missing chunk of
the render square), the rebuild budget is consumed by four older dirty
chunks before it is reached, and the eviction sweep of the same call
then evicts it (distance² = 50 > 49): the chunk is generated and
evicted in one tick without ever having been meshed, refuting the
claim's "never evicted in that same tick before it has been meshed". -/
theorem evicted_before_meshed :
    WEvent.gen (-5, -5) ∈ c9Run.2.2.2 ∧ WEvent.evict (-5, -5) ∈ c9Run.2.2.2 ∧
      WEvent.mesh (-5, -5) ∉ c9Run.2.2.2 := by
  rw [c9Run_log]
  decide

end MC
